import Mathlib

/-!
Verification development for the serpentis-nexus arcade simulation.

The JavaScript sources are shallowly embedded into Lean:
JS numbers are idealised as exact rationals, JS Map objects as
association lists with first-match lookup, JS Set objects as
duplicate-free lists in insertion order, and object references as
natural-number identifiers.  Values produced by the transcendental
library calls Math.sqrt and Math.sin cannot be represented exactly in
the rationals, so the embedded operations receive them as explicit
arguments; every theorem that touches such an argument carries the
defining algebraic constraints (square equals the sum of squares and
nonnegativity for a distance, membership in the interval from -1 to 1
for a sine value) as hypotheses.
-/

namespace SerpentisNexus

/-! ### Association-map and set primitives

Faithful value-level counterparts of the JS Map and Set operations that
the sources use: Map.get is first-match lookup, Map.set replaces the
binding in place (or appends a fresh one), Map.delete removes the
binding, Set.add appends when absent, Set.delete filters out.
-/

/-- First-match lookup in an association list (JS Map.get). -/
def lookupKey {α β : Type} [DecidableEq α] (k : α) : List (α × β) → Option β
  | [] => none
  | (k', v) :: rest => if k' = k then some v else lookupKey k rest

/-- Replace the binding for a key in place, or append it (JS Map.set). -/
def setKey {α β : Type} [DecidableEq α] (k : α) (v : β) :
    List (α × β) → List (α × β)
  | [] => [(k, v)]
  | (k', v') :: rest =>
      if k' = k then (k, v) :: rest else (k', v') :: setKey k v rest

/-- Remove the binding for a key (JS Map.delete). -/
def delKey {α β : Type} [DecidableEq α] (k : α) (m : List (α × β)) :
    List (α × β) :=
  m.filter (fun p => decide (p.1 ≠ k))

/-- Insert into a duplicate-free list, keeping insertion order (JS Set.add). -/
def setAdd {α : Type} [DecidableEq α] (s : List α) (o : α) : List α :=
  if o ∈ s then s else s ++ [o]

/-- Remove an element (JS Set.delete). -/
def setDel {α : Type} [DecidableEq α] (s : List α) (o : α) : List α :=
  s.filter (fun x => decide (x ≠ o))

/-! ### SpatialHash (src/src/systems/spatial-hash.js)

Objects registered in the hash are identified by natural numbers
standing for JS object references.  Cell keys are pairs of integers;
the source encodes them as strings of the shape cellX comma cellY,
which is a bijective encoding of the integer pair.  The lastUpdate
timestamp (Date.now) and the performance-statistics counters are
wall-clock or diagnostic state with no influence on the queries and
are omitted.
-/

/-- Object identifier: stands for a JS object reference. -/
abbrev Obj := ℕ

/-- Cell key: the integer pair encoded by the source's template string. -/
abbrev CellKey := ℤ × ℤ

/-- Per-object bookkeeping stored in the objects map of the hash. -/
structure ObjData where
  cellKeys : List CellKey
  x : ℚ
  y : ℚ
  width : ℚ
  height : ℚ
  deriving DecidableEq

/-- The spatial hash state: cell size, cells map, objects map. -/
structure SpatialHash where
  cellSize : ℚ
  cells : List (CellKey × List Obj)
  objects : List (Obj × ObjData)
  deriving DecidableEq

/-- A fresh spatial hash (the constructor). -/
def SpatialHash.mk0 (cellSize : ℚ) : SpatialHash := ⟨cellSize, [], []⟩

/-- getCellKey: floor of the coordinates divided by the cell size. -/
def getCellKey (cellSize x y : ℚ) : CellKey :=
  (⌊x / cellSize⌋, ⌊y / cellSize⌋)

/-- The integer interval from a to b inclusive, empty when b < a,
mirroring the source's ascending for loops. -/
def intRange (a b : ℤ) : List ℤ :=
  (List.range (b + 1 - a).toNat).map (fun (i : ℕ) => a + (i : ℤ))

/-- getObjectCells: all cell keys overlapped by the bounding box, in the
source's outer-x inner-y loop order.  (The source's unused object
parameter is dropped.) -/
def getObjectCells (cellSize x y width height : ℚ) : List CellKey :=
  let startCellX := ⌊x / cellSize⌋
  let endCellX := ⌊(x + width - 1) / cellSize⌋
  let startCellY := ⌊y / cellSize⌋
  let endCellY := ⌊(y + height - 1) / cellSize⌋
  (intRange startCellX endCellX).flatMap
    (fun cx => (intRange startCellY endCellY).map (fun cy => (cx, cy)))

/-- Register an object in one cell, creating the cell set if absent. -/
def cellInsert (cells : List (CellKey × List Obj)) (k : CellKey) (o : Obj) :
    List (CellKey × List Obj) :=
  match lookupKey k cells with
  | none => setKey k [o] cells
  | some s => setKey k (setAdd s o) cells

/-- Drop an object from one cell, deleting the cell entry if it becomes
empty. -/
def cellRemoveObj (cells : List (CellKey × List Obj)) (k : CellKey) (o : Obj) :
    List (CellKey × List Obj) :=
  match lookupKey k cells with
  | none => cells
  | some s =>
      if setDel s o = [] then delKey k cells else setKey k (setDel s o) cells

/-- remove: clears the object from all its recorded cells, dropping
emptied cell entries; returns whether the object was present. -/
def SpatialHash.remove (sh : SpatialHash) (o : Obj) : SpatialHash × Bool :=
  match lookupKey o sh.objects with
  | none => (sh, false)
  | some d =>
      let cells' := d.cellKeys.foldl (fun cs k => cellRemoveObj cs k o) sh.cells
      ({ sh with cells := cells', objects := delKey o sh.objects }, true)

/-- add: removes any prior registration, then registers the object in
every cell of its bounding box and records its data.  The JS default
parameters width = 1, height = 1 apply only when the caller omits the
arguments. -/
def SpatialHash.add (sh : SpatialHash) (o : Obj) (x y width height : ℚ) :
    SpatialHash :=
  let sh1 := (sh.remove o).1
  let cellKeys := getObjectCells sh1.cellSize x y width height
  let cells' := cellKeys.foldl (fun cs k => cellInsert cs k o) sh1.cells
  { sh1 with
    cells := cells',
    objects := setKey o ⟨cellKeys, x, y, width, height⟩ sh1.objects }

/-- arraysEqual: the source sorts copies of both key arrays and compares
them elementwise; since distinct cells have distinct string keys this
is exactly multiset equality. -/
def arraysEqual (l1 l2 : List CellKey) : Bool :=
  decide ((l1 : Multiset CellKey) = (l2 : Multiset CellKey))

/-- update: insert when unknown; pure position bookkeeping when the
box is unchanged or still overlaps the same cells; otherwise move the
registrations. -/
def SpatialHash.update (sh : SpatialHash) (o : Obj) (nx ny nw nh : ℚ) :
    SpatialHash :=
  match lookupKey o sh.objects with
  | none => sh.add o nx ny nw nh
  | some d =>
      if d.x = nx ∧ d.y = ny ∧ d.width = nw ∧ d.height = nh then sh
      else
        let newCellKeys := getObjectCells sh.cellSize nx ny nw nh
        let oldCellKeys := d.cellKeys
        if arraysEqual oldCellKeys newCellKeys then
          { sh with objects := setKey o ⟨oldCellKeys, nx, ny, nw, nh⟩ sh.objects }
        else
          let cells1 := oldCellKeys.foldl (fun cs k => cellRemoveObj cs k o) sh.cells
          let cells2 := newCellKeys.foldl (fun cs k => cellInsert cs k o) cells1
          { sh with
            cells := cells2,
            objects := setKey o ⟨newCellKeys, nx, ny, nw, nh⟩ sh.objects }

/-- clear: drops all registrations. -/
def SpatialHash.clear (sh : SpatialHash) : SpatialHash :=
  { sh with cells := [], objects := [] }

/-- queryPoint.  Radius 0 returns the contents of the single cell
containing the point; otherwise the union over the cells of a box of
side two radius, filtered by Euclidean distance to each object's stored
corner.  The source compares the square root of the squared offsets to
the radius; that holds exactly when the radius is nonnegative and its
square dominates the squared offsets, which is how the filter is
phrased here. -/
def SpatialHash.queryPoint (sh : SpatialHash) (x y radius : ℚ) : List Obj :=
  if radius = 0 then
    match lookupKey (getCellKey sh.cellSize x y) sh.cells with
    | none => []
    | some cell => cell
  else
    let cellKeys := getObjectCells sh.cellSize (x - radius) (y - radius)
      (radius * 2) (radius * 2)
    cellKeys.foldl
      (fun acc k =>
        match lookupKey k sh.cells with
        | none => acc
        | some cell =>
            cell.foldl
              (fun acc2 o =>
                match lookupKey o sh.objects with
                | none => acc2
                | some d =>
                    if 0 ≤ radius ∧
                        (d.x - x) ^ 2 + (d.y - y) ^ 2 ≤ radius ^ 2 then
                      setAdd acc2 o
                    else acc2)
              acc)
      []

/-- The two SpatialIndex invariants of the specification: every
recorded cell-key set coincides (as a set) with the cells overlapped by
the recorded bounding box, and every cell entry present in the map is
nonempty. -/
def SpatialHash.Inv (sh : SpatialHash) : Prop :=
  (∀ o d, lookupKey o sh.objects = some d →
    ∀ k, k ∈ d.cellKeys ↔
      k ∈ getObjectCells sh.cellSize d.x d.y d.width d.height) ∧
  (∀ k s, lookupKey k sh.cells = some s → s ≠ [])

/-! ### GravityWell (entities/gravity-well.js)

Only the simulation-relevant state is embedded; particle bookkeeping,
colours and rendering are omitted.  The phase accumulator enters the
force computation solely through Math.sin(phase * 3), whose value is
passed in as the sinPhase3 argument.  The distance Math.sqrt(dx * dx +
dy * dy) is likewise passed in; theorems constrain it by its defining
equations.  The one place a JS non-finite number can arise in the force
path is the vortex division dy / distance (and dx / distance) at
distance zero, so the per-axis force is a JSVal: either a finite
rational or the non-finite marker.
-/

/-- The four force-field kinds. -/
inductive WellType where
  | attract
  | repel
  | vortex
  | pulse
  deriving DecidableEq

/-- A JS number that is either finite (idealised as a rational) or
non-finite (NaN or an infinity). -/
inductive JSVal where
  | fin (q : ℚ)
  | undef
  deriving DecidableEq

/-- Division of finite JS numbers: non-finite when the divisor is 0. -/
def jsDivQ (a b : ℚ) : JSVal :=
  if b = 0 then JSVal.undef else JSVal.fin (a / b)

/-- Addition; any non-finite operand yields a non-finite result. -/
def jsAdd : JSVal → JSVal → JSVal
  | JSVal.fin a, JSVal.fin b => JSVal.fin (a + b)
  | _, _ => JSVal.undef

/-- Subtraction; any non-finite operand yields a non-finite result. -/
def jsSub : JSVal → JSVal → JSVal
  | JSVal.fin a, JSVal.fin b => JSVal.fin (a - b)
  | _, _ => JSVal.undef

/-- Multiplication; any non-finite operand yields a non-finite result
(in JS, NaN and Infinity times zero are both NaN). -/
def jsMul : JSVal → JSVal → JSVal
  | JSVal.fin a, JSVal.fin b => JSVal.fin (a * b)
  | _, _ => JSVal.undef

/-- A gravity well.  Wall-clock visual state (particles, rotation) is
omitted; pulseTimer only gates particle waves. -/
structure GravityWell where
  x : ℚ
  y : ℚ
  strength : ℚ
  radius : ℚ
  type : WellType
  active : Bool
  deriving DecidableEq

/-- Math.max(-0.5, Math.min(0.5, force)): the per-axis force clamp. -/
def clampForce (force : ℚ) : ℚ :=
  max (-(1/2)) (min (1/2) force)

/-- calculateAttractiveForce: zero at distance zero, otherwise the
clamped inverse-square-falloff component. -/
def calculateAttractiveForce (strength dx dy distance : ℚ) (isY : Bool) : ℚ :=
  if distance = 0 then 0
  else
    let component := if isY then dy else dx
    clampForce (strength * component / (distance * distance + 1))

/-- calculateTangentialForce: strength * 0.3 / (distance + 1).  The dx
and dy parameters are unused, as in the source.  Every caller passes a
nonnegative distance (a square root), so the rational division here
never sees the divisor 0 that JS would map to Infinity. -/
def calculateTangentialForce (strength dx dy distance : ℚ) : ℚ :=
  strength * (3/10) / (distance + 1)

/-- The switch block of applyGravity: the per-kind force vector for
offsets dx, dy and the given distance and sine values. -/
def perKindForce (w : GravityWell) (dx dy distance sinPhase3 : ℚ) :
    JSVal × JSVal :=
  match w.type with
  | WellType.attract =>
      (JSVal.fin (calculateAttractiveForce w.strength dx dy distance false),
       JSVal.fin (calculateAttractiveForce w.strength dx dy distance true))
  | WellType.repel =>
      (JSVal.fin (-(calculateAttractiveForce w.strength dx dy distance false)),
       JSVal.fin (-(calculateAttractiveForce w.strength dx dy distance true)))
  | WellType.vortex =>
      (jsSub (JSVal.fin (calculateAttractiveForce w.strength dx dy distance false))
         (jsMul (jsDivQ dy distance)
           (JSVal.fin (calculateTangentialForce w.strength dx dy distance))),
       jsAdd
         (JSVal.fin (calculateAttractiveForce w.strength dx dy distance true))
         (jsMul (jsDivQ dx distance)
           (JSVal.fin (calculateTangentialForce w.strength dx dy distance))))
  | WellType.pulse =>
      (JSVal.fin (calculateAttractiveForce w.strength dx dy distance false
          * (sinPhase3 * (1/2) + 1/2)),
       JSVal.fin (calculateAttractiveForce w.strength dx dy distance true
          * (sinPhase3 * (1/2) + 1/2)))

/-- applyGravity, up to the force it hands to
snake.applyGravitationalForce: none when the well is inactive, the
snake is dead, or the target is out of range (distance greater than
radius / 20); otherwise the per-kind force vector.  hx, hy is the head
position; dx, dy are measured from the cell centre as in the source. -/
def applyGravityForce (w : GravityWell) (snakeAlive : Bool) (hx hy : ℚ)
    (distance sinPhase3 : ℚ) : Option (JSVal × JSVal) :=
  if ¬ (w.active = true) ∨ ¬ (snakeAlive = true) then none
  else
    if distance > w.radius / 20 then none
    else
      some (perKindForce w (w.x - (hx + 1/2)) (w.y - (hy + 1/2))
        distance sinPhase3)

/-- The algebraic characterisation of the source's
distance = Math.sqrt(dx * dx + dy * dy) for the head position hx, hy:
nonnegative, and its square is the sum of the squared offsets. -/
def DistSpec (w : GravityWell) (hx hy distance : ℚ) : Prop :=
  0 ≤ distance ∧
    distance ^ 2 = (w.x - (hx + 1/2)) ^ 2 + (w.y - (hy + 1/2)) ^ 2

/-- A JS value that is finite and within the per-axis clamp bound. -/
def ClampedFin (v : JSVal) : Prop :=
  ∃ q : ℚ, v = JSVal.fin q ∧ |q| ≤ 1/2

/-! ### Snake (entities/snake.js)

Segment kinds are the closed set used by the sources.  The
activePowerUps map only ever holds the keys armor and magnetism, each
with the corresponding segment count as its level, so it is embedded as
two optional counters.  Rendering state (colours) is omitted.
activateBoost relies on a setTimeout auto-revert and wall-clock
cooldowns and is not needed by the claims.  Math.random() in takeDamage
is passed in as the roll argument, with 0 &le; roll &lt; 1.
-/

/-- The closed set of segment kinds. -/
inductive SegType where
  | head
  | normal
  | armored
  | booster
  | magnetic
  deriving DecidableEq

/-- One snake segment: grid position and kind. -/
structure Segment where
  x : ℚ
  y : ℚ
  type : SegType
  deriving DecidableEq

/-- Player or enemy snake. -/
inductive SnakeType where
  | player
  | enemy
  deriving DecidableEq

/-- The snake state.  The id field stands for JS reference identity
(used by the engine's indexOf); velocity is unused by the sources'
logic and omitted. -/
structure Snake where
  id : ℕ
  type : SnakeType
  segments : List Segment
  direction : ℤ × ℤ
  nextDirection : ℤ × ℤ
  alive : Bool
  speed : ℚ
  baseSpeed : ℚ
  boostActive : Bool
  boostCooldown : ℚ
  invulnerable : Bool
  invulnerabilityTime : ℚ
  gravitationalForce : ℚ × ℚ
  armorLevelPU : Option ℕ
  magnetismLevelPU : Option ℕ
  deriving DecidableEq

/-- The Snake constructor at a position. -/
def Snake.mk0 (i : ℕ) (t : SnakeType) (x y : ℚ) : Snake :=
  ⟨i, t, [⟨x, y, SegType.head⟩], (1, 0), (1, 0), true, 1, 1, false, 0,
    false, 0, (0, 0), none, none⟩

/-- reset: back to a single head segment at the given position. -/
def Snake.reset (s : Snake) (x y : ℚ) : Snake :=
  { s with
    segments := [⟨x, y, SegType.head⟩],
    direction := (1, 0),
    nextDirection := (1, 0),
    alive := true,
    speed := s.baseSpeed,
    boostActive := false,
    boostCooldown := 0,
    invulnerable := false,
    invulnerabilityTime := 0,
    gravitationalForce := (0, 0),
    armorLevelPU := none,
    magnetismLevelPU := none }

/-- The four direction command names accepted by setDirection. -/
inductive DirName where
  | up
  | down
  | left
  | right
  deriving DecidableEq

/-- The opposite-direction table of setDirection. -/
def oppositeDir : DirName → DirName
  | DirName.up => DirName.down
  | DirName.down => DirName.up
  | DirName.left => DirName.right
  | DirName.right => DirName.left

/-- The directions table of setDirection. -/
def dirVec : DirName → ℤ × ℤ
  | DirName.up => (0, -1)
  | DirName.down => (0, 1)
  | DirName.left => (-1, 0)
  | DirName.right => (1, 0)

/-- getCurrentDirectionName, with the source's fallback to right. -/
def getCurrentDirectionName (s : Snake) : DirName :=
  if s.direction = (0, -1) then DirName.up
  else if s.direction = (0, 1) then DirName.down
  else if s.direction = (-1, 0) then DirName.left
  else if s.direction = (1, 0) then DirName.right
  else DirName.right

/-- setDirection: no-op when dead or when the command is the exact
reverse of the current direction; otherwise buffers the new vector. -/
def Snake.setDirection (s : Snake) (d : DirName) : Snake :=
  if ¬ (s.alive = true) then s
  else if oppositeDir d = getCurrentDirectionName s then s
  else { s with nextDirection := dirVec d }

/-- Number of armored segments in a list. -/
def armoredCount (l : List Segment) : ℕ :=
  (l.filter (fun sg => decide (sg.type = SegType.armored))).length

/-- Number of magnetic segments in a list. -/
def magneticCount (l : List Segment) : ℕ :=
  (l.filter (fun sg => decide (sg.type = SegType.magnetic))).length

/-- updateSegmentEffects: recompute the armor and magnetism power-up
levels from the current segment composition. -/
def Snake.updateSegmentEffects (s : Snake) : Snake :=
  let ac := armoredCount s.segments
  let mc := magneticCount s.segments
  { s with
    armorLevelPU := if 0 < ac then some ac else none,
    magnetismLevelPU := if 0 < mc then some mc else none }

/-- grow: append a tail copy with the given kind, then recompute the
derived effects.  The snake always has at least one segment; on the
unreachable empty list this is the identity. -/
def Snake.grow (s : Snake) (segmentType : SegType) : Snake :=
  if ¬ (s.alive = true) then s
  else
    match s.segments.getLast? with
    | none => s
    | some tail =>
        Snake.updateSegmentEffects
          { s with segments := s.segments ++ [⟨tail.x, tail.y, segmentType⟩] }

/-- setInvulnerable. -/
def Snake.setInvulnerable (s : Snake) (duration : ℚ) : Snake :=
  { s with invulnerable := true, invulnerabilityTime := duration }

/-- getEffectLevel for the armor effect. -/
def Snake.armorLevel (s : Snake) : ℕ :=
  match s.armorLevelPU with
  | some lvl => lvl
  | none => 0

/-- Remove the rightmost armored element of a list, if any. -/
def removeLastArmored : List Segment → Option (List Segment)
  | [] => none
  | sg :: rest =>
      match removeLastArmored rest with
      | some rest' => some (sg :: rest')
      | none =>
          if sg.type = SegType.armored then some rest else none

/-- removeArmoredSegment: scan from the tail down to index 1 and remove
the first armored segment found, recomputing the derived effects. -/
def Snake.removeArmoredSegment (s : Snake) : Snake :=
  match s.segments with
  | [] => s
  | h0 :: rest =>
      match removeLastArmored rest with
      | none => s
      | some rest' =>
          Snake.updateSegmentEffects { s with segments := h0 :: rest' }

/-- takeDamage, with Math.random() as the roll argument.  Returns the
updated snake and the died flag. -/
def Snake.takeDamage (s : Snake) (roll : ℚ) : Snake × Bool :=
  if s.invulnerable = true then (s, false)
  else
    let armorLevel := s.armorLevel
    if 0 < armorLevel ∧
        roll < min ((armorLevel : ℚ) * (2/10)) (8/10) then
      ((s.removeArmoredSegment.setInvulnerable 1000), false)
    else ({ s with alive := false }, true)

/-- Math.round: floor of the value plus one half (JS rounds half up,
toward positive infinity). -/
def jsRound (q : ℚ) : ℤ :=
  ⌊q + 1/2⌋

/-- moveSegments: the head moves by the delta; every other segment
takes the position its predecessor held before the move, keeping its
own kind. -/
def moveSegments (segs : List Segment) (dx dy : ℤ) : List Segment :=
  match segs with
  | [] => []
  | h :: rest =>
      { h with x := h.x + dx, y := h.y + dy } ::
        List.zipWith (fun (follower prev : Segment) =>
          { follower with x := prev.x, y := prev.y }) rest segs

/-- Snake.update: cooldown bookkeeping, committing the buffered
direction, movement from direction times speed plus 0.3 times the
accumulated force rounded to grid steps, and clearing the force
buffer. -/
def Snake.update (s : Snake) (deltaTime : ℚ) : Snake :=
  if ¬ (s.alive = true) then s
  else
    let bc := if 0 < s.boostCooldown then s.boostCooldown - deltaTime * 1000
      else s.boostCooldown
    let itRaw := s.invulnerabilityTime
    let it := if 0 < itRaw then itRaw - deltaTime * 1000 else itRaw
    let inv := if 0 < itRaw ∧ it ≤ 0 then false else s.invulnerable
    let dir := s.nextDirection
    let moveX := (dir.1 : ℚ) * s.speed + s.gravitationalForce.1 * (3/10)
    let moveY := (dir.2 : ℚ) * s.speed + s.gravitationalForce.2 * (3/10)
    { s with
      boostCooldown := bc,
      invulnerabilityTime := it,
      invulnerable := inv,
      direction := dir,
      segments := moveSegments s.segments (jsRound moveX) (jsRound moveY),
      gravitationalForce := (0, 0) }

/-! ### GameEngine collision handling (engine/game-engine.js)

Only the state read or written by the snake-versus-snake collision pass
is embedded: lives, score, game state, the player snake and the enemy
list, plus the grid dimensions used by respawnPlayer.  Audio and
particle side effects are omitted.  JS splices an enemy out of
this.enemies by reference identity; snake ids model that identity, and
an auxiliary ghost list carries snakes that were removed from the
engine but are still referenced by the pass's snapshot array, exactly
as the JS allSnakes array keeps referencing spliced-out objects.
-/

/-- The engine's game states. -/
inductive GState where
  | stopped
  | running
  | paused
  deriving DecidableEq

/-- The engine state touched by the collision pass. -/
structure Engine where
  gridWidth : ℤ
  gridHeight : ℤ
  gameState : GState
  score : ℤ
  lives : ℤ
  playerSnake : Snake
  enemies : List Snake
  deriving DecidableEq

/-- getHead, with a dummy on the unreachable empty segment list. -/
def Snake.headSeg (s : Snake) : Segment :=
  match s.segments with
  | [] => ⟨0, 0, SegType.head⟩
  | h :: _ => h

/-- checkSnakeCollision: does snake1's head overlap any segment of
snake2? -/
def checkSnakeCollision (s1 s2 : Snake) : Bool :=
  s2.segments.any (fun seg =>
    decide (s1.headSeg.x = seg.x) && decide (s1.headSeg.y = seg.y))

/-- respawnPlayer: reset the player to the grid centre with a timed
invulnerability window. -/
def Engine.respawnPlayer (e : Engine) : Engine :=
  { e with
    playerSnake :=
      (e.playerSnake.reset (((e.gridWidth / 2 : ℤ) : ℚ))
          (((e.gridHeight / 2 : ℤ) : ℚ))).setInvulnerable 2000 }

/-- handleSnakeCollision: the player loses a life and either respawns
or, at zero lives, stops the game; an enemy is spliced out of the list
for 50 points.  Returns the updated engine and the snakes newly removed
from the engine (still referenced by the pass's snapshot). -/
def handleSnakeCollision (e : Engine) (s : Snake) : Engine × List Snake :=
  if s.type = SnakeType.player then
    let lives' := e.lives - 1
    if lives' ≤ 0 then
      ({ e with lives := lives', gameState := GState.stopped }, [])
    else ((Engine.respawnPlayer { e with lives := lives' }), [])
  else
    match e.enemies.find? (fun t => decide (t.id = s.id)) with
    | none => (e, [])
    | some t =>
        ({ e with
            enemies := e.enemies.eraseP (fun u => decide (u.id = s.id)),
            score := e.score + 50 }, [t])

/-- snake.grow() applied through the engine to whichever live slot (or
ghost) currently holds the snake with the given id. -/
def growById (e : Engine) (ghosts : List Snake) (i : ℕ) :
    Engine × List Snake :=
  if e.playerSnake.id = i then
    ({ e with playerSnake := e.playerSnake.grow SegType.normal }, ghosts)
  else
    ({ e with
        enemies := e.enemies.map
          (fun t => if t.id = i then t.grow SegType.normal else t) },
      ghosts.map (fun t => if t.id = i then t.grow SegType.normal else t))

/-- handleSnakeVsSnakeCollision: the longer snake survives and grows,
the shorter one is handled as a casualty; equal lengths destroy both. -/
def handleSnakeVsSnakeCollision (e : Engine) (ghosts : List Snake)
    (s1 s2 : Snake) : Engine × List Snake :=
  if s2.segments.length < s1.segments.length then
    let (e1, g1) := handleSnakeCollision e s2
    growById e1 (ghosts ++ g1) s1.id
  else if s1.segments.length < s2.segments.length then
    let (e1, g1) := handleSnakeCollision e s1
    growById e1 (ghosts ++ g1) s2.id
  else
    let (e1, g1) := handleSnakeCollision e s1
    let (e2, g2) := handleSnakeCollision e1 s2
    (e2, ghosts ++ g1 ++ g2)

/-- The ordered pair snapshot of the source's nested i, j loop. -/
def pairsOf : List ℕ → List (ℕ × ℕ)
  | [] => []
  | i :: rest => rest.map (fun j => (i, j)) ++ pairsOf rest

/-- Look a snapshot id up in the current engine or among removed
snakes. -/
def Engine.getSnakeById (e : Engine) (ghosts : List Snake) (i : ℕ) :
    Option Snake :=
  if e.playerSnake.id = i then some e.playerSnake
  else
    match e.enemies.find? (fun t => decide (t.id = i)) with
    | some t => some t
    | none => ghosts.find? (fun t => decide (t.id = i))

/-- checkSnakeVsSnakeCollisions: iterate over all unordered snapshot
pairs, reading the current state of each snake, and resolve every
detected collision. -/
def checkSnakeVsSnakeCollisions (e : Engine) : Engine :=
  let ids := e.playerSnake.id :: e.enemies.map (fun t => t.id)
  ((pairsOf ids).foldl
    (fun (acc : Engine × List Snake) (p : ℕ × ℕ) =>
      match acc.1.getSnakeById acc.2 p.1, acc.1.getSnakeById acc.2 p.2 with
      | some s1, some s2 =>
          if checkSnakeCollision s1 s2 then
            handleSnakeVsSnakeCollision acc.1 acc.2 s1 s2
          else acc
      | _, _ => acc)
    (e, [])).1

/-! ### ConstellationManager (src/src/systems/constellation-manager.js)

Patterns are kept as an association list in the source's insertion
order (Object.keys order).  Colours and descriptions are rendering data
and omitted.  collectedStars is a JS Set, embedded as a duplicate-free
list in insertion order; its size is the list length.  Math.random()
values are passed in as an argument, and the Date.now() completion
timestamp as the now argument.  The setTimeout scheduled by
startMorphing is modelled by the pendingPattern field recording the
pattern the timer will install.
-/

/-- A constellation pattern: display name, required star tags, bonus. -/
structure Pattern where
  name : String
  stars : List String
  bonus : ℤ
  deriving DecidableEq

/-- A completed-goal history entry. -/
structure Completion where
  pattern : String
  name : String
  completedAt : ℕ
  bonus : ℤ
  deriving DecidableEq

/-- The constellation-manager state. -/
structure CMState where
  patterns : List (String × Pattern)
  currentPattern : Option Pattern
  collectedStars : List String
  targetPattern : String
  morphingActive : Bool
  morphTimer : ℚ
  completedPatterns : List Completion
  recentPatterns : List String
  pendingPattern : Option String
  deriving DecidableEq

/-- The four built-in patterns, in Object.keys order. -/
def builtinPatterns : List (String × Pattern) :=
  [("triangle", ⟨"Triangle Celeste", ["alpha", "beta", "gamma"], 150⟩),
   ("cross", ⟨"Croix Stellaire",
      ["north", "south", "east", "west", "center"], 200⟩),
   ("spiral", ⟨"Spirale Cosmique",
      ["core", "arm1", "arm2", "arm3", "arm4", "arm5"], 300⟩),
   ("diamond", ⟨"Diamant Eternel", ["top", "left", "right", "bottom"], 180⟩)]

/-- setPattern: unknown ids warn and keep everything; otherwise install
the pattern, clear the satisfied set and cancel any transition. -/
def CMState.setPattern (st : CMState) (patternName : String) : CMState :=
  match lookupKey patternName st.patterns with
  | none => st
  | some p =>
      { st with
        currentPattern := some p,
        targetPattern := patternName,
        collectedStars := [],
        morphingActive := false,
        morphTimer := 0 }

/-- selectRandomPattern: a uniformly random key. -/
def CMState.selectRandomPattern (st : CMState) (r : ℚ) : String :=
  let keys := st.patterns.map Prod.fst
  keys.getD (⌊r * (keys.length : ℚ)⌋).toNat ""

/-- selectNextPattern: pick uniformly among the keys not in the
no-repeat memory, falling back to a fully random pick (and clearing the
memory) when none remain; afterwards push the current target into the
memory, keeping at most the last two entries. -/
def CMState.selectNextPattern (st : CMState) (r : ℚ) : String × CMState :=
  let available := (st.patterns.map Prod.fst).filter
    (fun p => decide (p ∉ st.recentPatterns))
  if available = [] then
    let st' := { st with recentPatterns := [] }
    (st'.selectRandomPattern r, st')
  else
    let nextPattern := available.getD (⌊r * (available.length : ℚ)⌋).toNat ""
    let recent' := st.recentPatterns ++ [st.targetPattern]
    let recent'' := if 2 < recent'.length then recent'.drop 1 else recent'
    (nextPattern, { st with recentPatterns := recent'' })

/-- startMorphing: activate the 3000 ms transition, select the next
pattern and schedule the swap to it. -/
def CMState.startMorphing (st : CMState) (r : ℚ) : CMState :=
  let st1 := { st with morphingActive := true, morphTimer := 3000 }
  let sel := st1.selectNextPattern r
  { sel.2 with pendingPattern := some sel.1 }

/-- completeConstellation for the current pattern p: append the history
entry and start the morphing transition; returns true. -/
def CMState.completeConstellation (st : CMState) (p : Pattern) (r : ℚ)
    (now : ℕ) : CMState × Bool :=
  let st1 := { st with
    completedPatterns :=
      st.completedPatterns ++
        [(⟨st.targetPattern, p.name, now, p.bonus⟩ : Completion)] }
  (st1.startMorphing r, true)

/-- collectStar: false without effect for a foreign or already-counted
tag; otherwise record it, completing the constellation exactly when the
satisfied count reaches the required total. -/
def CMState.collectStar (st : CMState) (starType : String) (r : ℚ)
    (now : ℕ) : CMState × Bool :=
  match st.currentPattern with
  | none => (st, false)
  | some p =>
      if ¬ (starType ∈ p.stars) then (st, false)
      else if starType ∈ st.collectedStars then (st, false)
      else
        let st1 := { st with collectedStars := st.collectedStars ++ [starType] }
        if st1.collectedStars.length = p.stars.length then
          st1.completeConstellation p r now
        else (st1, false)

/-! ## Lemmas about the map and set primitives -/

theorem lookupKey_setKey_self {α β : Type} [DecidableEq α] (k : α) (v : β)
    (m : List (α × β)) : lookupKey k (setKey k v m) = some v := by
  induction m with
  | nil => simp [setKey, lookupKey]
  | cons a m ih =>
      obtain ⟨a1, a2⟩ := a
      by_cases ha : a1 = k
      · simp [setKey, ha, lookupKey]
      · simp only [setKey, ha, if_false, lookupKey]
        simpa [ha] using ih

theorem lookupKey_setKey_ne {α β : Type} [DecidableEq α] (k k' : α) (v : β)
    (m : List (α × β)) (hne : k' ≠ k) :
    lookupKey k' (setKey k v m) = lookupKey k' m := by
  induction m with
  | nil => simp [setKey, lookupKey, Ne.symm hne]
  | cons a m ih =>
      obtain ⟨a1, a2⟩ := a
      by_cases ha : a1 = k
      · subst ha
        simp [setKey, lookupKey, Ne.symm hne]
      · by_cases hb : a1 = k'
        · simp [setKey, ha, lookupKey, hb, hne]
        · simp only [setKey, ha, if_false, lookupKey, hb]
          simpa [hb] using ih

theorem lookupKey_setKey_cases {α β : Type} [DecidableEq α] {k k' : α}
    {v v' : β} {m : List (α × β)}
    (h : lookupKey k' (setKey k v m) = some v') :
    v' = v ∨ lookupKey k' m = some v' := by
  by_cases he : k' = k
  · subst he
    rw [lookupKey_setKey_self] at h
    exact Or.inl (Option.some_injective _ h).symm
  · rw [lookupKey_setKey_ne k k' v m he] at h
    exact Or.inr h

theorem lookupKey_delKey_self {α β : Type} [DecidableEq α] (k : α)
    (m : List (α × β)) : lookupKey k (delKey k m) = none := by
  induction m with
  | nil => rfl
  | cons a m ih =>
      obtain ⟨a1, a2⟩ := a
      by_cases ha : a1 = k
      · simpa [delKey, ha] using ih
      · simpa [delKey, lookupKey, ha] using ih

theorem lookupKey_delKey_ne {α β : Type} [DecidableEq α] (k k' : α)
    (m : List (α × β)) (hne : k' ≠ k) :
    lookupKey k' (delKey k m) = lookupKey k' m := by
  induction m with
  | nil => rfl
  | cons a m ih =>
      obtain ⟨a1, a2⟩ := a
      by_cases ha : a1 = k
      · subst ha
        simpa [delKey, lookupKey, Ne.symm hne] using ih
      · by_cases hb : a1 = k'
        · simp [delKey, lookupKey, ha, hb, hne]
        · simpa [delKey, lookupKey, ha, hb] using ih

theorem setAdd_ne_nil {α : Type} [DecidableEq α] (s : List α) (o : α) :
    setAdd s o ≠ [] := by
  unfold setAdd
  by_cases h : o ∈ s
  · simp only [h, if_true]
    exact List.ne_nil_of_mem h
  · simp [h]

theorem mem_setAdd_self {α : Type} [DecidableEq α] (s : List α) (o : α) :
    o ∈ setAdd s o := by
  unfold setAdd
  by_cases h : o ∈ s <;> simp [h]

theorem mem_setAdd_of_mem {α : Type} [DecidableEq α] {s : List α} {x : α}
    (o : α) (h : x ∈ s) : x ∈ setAdd s o := by
  unfold setAdd
  by_cases ho : o ∈ s <;> simp [ho, h]

theorem not_mem_setDel_self {α : Type} [DecidableEq α] (s : List α) (o : α) :
    o ∉ setDel s o := by
  simp [setDel]

/-! ## Lemmas about cell registration -/

theorem cellInsert_self {cells : List (CellKey × List Obj)} (k : CellKey)
    (o : Obj) : ∃ s, lookupKey k (cellInsert cells k o) = some s ∧ o ∈ s := by
  unfold cellInsert
  cases h : lookupKey k cells with
  | none =>
      exact ⟨[o], by rw [lookupKey_setKey_self], by simp⟩
  | some s =>
      exact ⟨setAdd s o, by rw [lookupKey_setKey_self], mem_setAdd_self s o⟩

theorem cellInsert_preserves_mem {cells : List (CellKey × List Obj)}
    {k' : CellKey} {s : List Obj} {x : Obj} (k : CellKey) (o : Obj)
    (hs : lookupKey k' cells = some s) (hx : x ∈ s) :
    ∃ s', lookupKey k' (cellInsert cells k o) = some s' ∧ x ∈ s' := by
  unfold cellInsert
  by_cases he : k' = k
  · subst he
    rw [hs]
    exact ⟨setAdd s o, by rw [lookupKey_setKey_self], mem_setAdd_of_mem o hx⟩
  · cases h : lookupKey k cells with
    | none => exact ⟨s, by rw [lookupKey_setKey_ne k k' _ _ he]; exact hs, hx⟩
    | some t => exact ⟨s, by rw [lookupKey_setKey_ne k k' _ _ he]; exact hs, hx⟩

theorem cellInsert_nonempty {cells : List (CellKey × List Obj)}
    (k : CellKey) (o : Obj)
    (h : ∀ k' s', lookupKey k' cells = some s' → s' ≠ []) :
    ∀ k' s', lookupKey k' (cellInsert cells k o) = some s' → s' ≠ [] := by
  intro k' s' hs'
  unfold cellInsert at hs'
  cases hk : lookupKey k cells with
  | none =>
      rw [hk] at hs'
      rcases lookupKey_setKey_cases hs' with h1 | h1
      · subst h1; simp
      · exact h k' s' h1
  | some s =>
      rw [hk] at hs'
      rcases lookupKey_setKey_cases hs' with h1 | h1
      · subst h1; exact setAdd_ne_nil s o
      · exact h k' s' h1

theorem foldl_cellInsert_preserves_mem
    {cells : List (CellKey × List Obj)} {k : CellKey} {s : List Obj}
    {o : Obj} (keys : List CellKey)
    (hs : lookupKey k cells = some s) (hx : o ∈ s) :
    ∃ s', lookupKey k
        (keys.foldl (fun cs k' => cellInsert cs k' o) cells) = some s' ∧
      o ∈ s' := by
  induction keys generalizing cells s with
  | nil => exact ⟨s, hs, hx⟩
  | cons k0 rest ih =>
      obtain ⟨s1, hs1, hm1⟩ := cellInsert_preserves_mem k0 o hs hx
      simpa using ih hs1 hm1

theorem foldl_cellInsert_mem {cells : List (CellKey × List Obj)}
    {k : CellKey} {o : Obj} (keys : List CellKey) (hk : k ∈ keys) :
    ∃ s, lookupKey k
        (keys.foldl (fun cs k' => cellInsert cs k' o) cells) = some s ∧
      o ∈ s := by
  induction keys generalizing cells with
  | nil => cases hk
  | cons k0 rest ih =>
      rcases List.mem_cons.mp hk with he | hm
      · subst he
        obtain ⟨s1, hs1, hm1⟩ := @cellInsert_self cells k o
        simpa using foldl_cellInsert_preserves_mem rest hs1 hm1
      · simpa using ih hm

theorem foldl_cellInsert_nonempty {cells : List (CellKey × List Obj)}
    {o : Obj} (keys : List CellKey)
    (h : ∀ k' s', lookupKey k' cells = some s' → s' ≠ []) :
    ∀ k' s', lookupKey k'
        (keys.foldl (fun cs k' => cellInsert cs k' o) cells) = some s' →
      s' ≠ [] := by
  induction keys generalizing cells with
  | nil => exact h
  | cons k0 rest ih =>
      intro k' s' hs'
      exact ih (cellInsert_nonempty k0 o h) k' s' (by simpa using hs')

/-- After removing o from cell k, o is not in the set stored at k. -/
theorem cellRemoveObj_self {cells : List (CellKey × List Obj)}
    (k : CellKey) (o : Obj) :
    ∀ s, lookupKey k (cellRemoveObj cells k o) = some s → o ∉ s := by
  unfold cellRemoveObj
  cases hk : lookupKey k cells with
  | none =>
      intro s hs
      simp [hk] at hs
  | some t =>
      intro s hs
      have hs2 : lookupKey k (if setDel t o = [] then delKey k cells
          else setKey k (setDel t o) cells) = some s := hs
      by_cases he : setDel t o = []
      · rw [if_pos he, lookupKey_delKey_self] at hs2
        cases hs2
      · rw [if_neg he, lookupKey_setKey_self] at hs2
        cases hs2
        exact not_mem_setDel_self t o

theorem cellRemoveObj_preserves_notin {cells : List (CellKey × List Obj)}
    {k : CellKey} {o : Obj} (k'' : CellKey)
    (h : ∀ s, lookupKey k cells = some s → o ∉ s) :
    ∀ s, lookupKey k (cellRemoveObj cells k'' o) = some s → o ∉ s := by
  unfold cellRemoveObj
  cases hk : lookupKey k'' cells with
  | none => exact h
  | some t =>
      intro s hs
      have hs2 : lookupKey k (if setDel t o = [] then delKey k'' cells
          else setKey k'' (setDel t o) cells) = some s := hs
      by_cases he : setDel t o = []
      · rw [if_pos he] at hs2
        by_cases hkk : k = k''
        · subst hkk; rw [lookupKey_delKey_self] at hs2; cases hs2
        · rw [lookupKey_delKey_ne k'' k _ hkk] at hs2; exact h s hs2
      · rw [if_neg he] at hs2
        by_cases hkk : k = k''
        · subst hkk
          rw [lookupKey_setKey_self] at hs2
          cases hs2
          exact not_mem_setDel_self t o
        · rw [lookupKey_setKey_ne k'' k _ _ hkk] at hs2
          exact h s hs2

theorem foldl_cellRemoveObj_preserves_notin
    {cells : List (CellKey × List Obj)} {k : CellKey} {o : Obj}
    (keys : List CellKey)
    (h : ∀ s, lookupKey k cells = some s → o ∉ s) :
    ∀ s, lookupKey k
        (keys.foldl (fun cs k' => cellRemoveObj cs k' o) cells) = some s →
      o ∉ s := by
  induction keys generalizing cells with
  | nil => exact h
  | cons k0 rest ih =>
      intro s hs
      exact ih (cellRemoveObj_preserves_notin k0 h) s (by simpa using hs)

theorem foldl_cellRemoveObj_notin {cells : List (CellKey × List Obj)}
    {k : CellKey} {o : Obj} (keys : List CellKey) (hk : k ∈ keys) :
    ∀ s, lookupKey k
        (keys.foldl (fun cs k' => cellRemoveObj cs k' o) cells) = some s →
      o ∉ s := by
  induction keys generalizing cells with
  | nil => cases hk
  | cons k0 rest ih =>
      rcases List.mem_cons.mp hk with he | hm
      · subst he
        intro s hs
        exact foldl_cellRemoveObj_preserves_notin rest
          (cellRemoveObj_self k o) s (by simpa using hs)
      · intro s hs
        exact ih hm s hs

theorem cellRemoveObj_nonempty {cells : List (CellKey × List Obj)}
    (k : CellKey) (o : Obj)
    (h : ∀ k' s', lookupKey k' cells = some s' → s' ≠ []) :
    ∀ k' s', lookupKey k' (cellRemoveObj cells k o) = some s' → s' ≠ [] := by
  unfold cellRemoveObj
  cases hk : lookupKey k cells with
  | none => exact h
  | some t =>
      intro k' s' hs'
      have hs2 : lookupKey k' (if setDel t o = [] then delKey k cells
          else setKey k (setDel t o) cells) = some s' := hs'
      by_cases he : setDel t o = []
      · rw [if_pos he] at hs2
        by_cases hkk : k' = k
        · subst hkk; rw [lookupKey_delKey_self] at hs2; cases hs2
        · rw [lookupKey_delKey_ne k k' _ hkk] at hs2; exact h k' s' hs2
      · rw [if_neg he] at hs2
        rcases lookupKey_setKey_cases hs2 with h1 | h1
        · subst h1; exact he
        · exact h k' s' h1

theorem foldl_cellRemoveObj_nonempty {cells : List (CellKey × List Obj)}
    {o : Obj} (keys : List CellKey)
    (h : ∀ k' s', lookupKey k' cells = some s' → s' ≠ []) :
    ∀ k' s', lookupKey k'
        (keys.foldl (fun cs k' => cellRemoveObj cs k' o) cells) = some s' →
      s' ≠ [] := by
  induction keys generalizing cells with
  | nil => exact h
  | cons k0 rest ih =>
      intro k' s' hs'
      exact ih (cellRemoveObj_nonempty k0 o h) k' s' (by simpa using hs')

/-! ## Geometry of getObjectCells -/

theorem mem_intRange {a b c : ℤ} (h1 : a ≤ c) (h2 : c ≤ b) :
    c ∈ intRange a b := by
  unfold intRange
  have hco : c = a + (((c - a).toNat : ℕ) : ℤ) := by omega
  have hmem : (c - a).toNat ∈ List.range (b + 1 - a).toNat :=
    List.mem_range.mpr (by omega)
  rw [hco]
  exact List.mem_map_of_mem _ hmem

theorem getCellKey_mem_getObjectCells {cellSize x y w h : ℚ}
    (hcs : 0 < cellSize) (hw : 1 ≤ w) (hh : 1 ≤ h) :
    getCellKey cellSize x y ∈ getObjectCells cellSize x y w h := by
  unfold getCellKey getObjectCells
  refine List.mem_flatMap.mpr ⟨⌊x / cellSize⌋, ?_, ?_⟩
  · refine mem_intRange le_rfl (Int.floor_le_floor ?_)
    exact (div_le_div_iff_of_pos_right hcs).mpr (by linarith)
  · refine List.mem_map.mpr ⟨⌊y / cellSize⌋, ?_, rfl⟩
    refine mem_intRange le_rfl (Int.floor_le_floor ?_)
    exact (div_le_div_iff_of_pos_right hcs).mpr (by linarith)

/-! ## Structural lemmas about the SpatialHash operations -/

theorem remove_fst_cellSize (sh : SpatialHash) (o : Obj) :
    ((sh.remove o).1).cellSize = sh.cellSize := by
  unfold SpatialHash.remove
  cases lookupKey o sh.objects <;> rfl

theorem inv_mk0 (c : ℚ) : (SpatialHash.mk0 c).Inv := by
  constructor
  · intro o d hd
    simp [SpatialHash.mk0, lookupKey] at hd
  · intro k s hs
    simp [SpatialHash.mk0, lookupKey] at hs

theorem inv_clear (sh : SpatialHash) : (sh.clear).Inv := by
  constructor
  · intro o d hd
    simp [SpatialHash.clear, lookupKey] at hd
  · intro k s hs
    simp [SpatialHash.clear, lookupKey] at hs

theorem inv_remove (sh : SpatialHash) (o : Obj) (hInv : sh.Inv) :
    ((sh.remove o).1).Inv := by
  cases hd : lookupKey o sh.objects with
  | none =>
      have he : (sh.remove o).1 = sh := by
        unfold SpatialHash.remove; rw [hd]
      rw [he]; exact hInv
  | some d =>
      have he : (sh.remove o).1 =
          { sh with
            cells := d.cellKeys.foldl (fun cs k => cellRemoveObj cs k o) sh.cells,
            objects := delKey o sh.objects } := by
        unfold SpatialHash.remove; rw [hd]
      rw [he]
      constructor
      · intro o' d' hd' k
        by_cases ho' : o' = o
        · subst ho'
          rw [show lookupKey o' ({ sh with
              cells := d.cellKeys.foldl (fun cs k => cellRemoveObj cs k o') sh.cells,
              objects := delKey o' sh.objects } : SpatialHash).objects
              = lookupKey o' (delKey o' sh.objects) from rfl,
            lookupKey_delKey_self] at hd'
          cases hd'
        · have hd2 : lookupKey o' (delKey o sh.objects) = some d' := hd'
          rw [lookupKey_delKey_ne o o' _ ho'] at hd2
          exact hInv.1 o' d' hd2 k
      · intro k s hs
        exact foldl_cellRemoveObj_nonempty d.cellKeys hInv.2 k s hs

theorem inv_add (sh : SpatialHash) (o : Obj) (x y w h : ℚ) (hInv : sh.Inv) :
    (sh.add o x y w h).Inv := by
  have h1 := inv_remove sh o hInv
  constructor
  · intro o' d' hd' k
    have hd2 : lookupKey o'
        (setKey o ⟨getObjectCells ((sh.remove o).1).cellSize x y w h,
          x, y, w, h⟩ ((sh.remove o).1).objects) = some d' := hd'
    rcases lookupKey_setKey_cases hd2 with h2 | h2
    · subst h2
      exact Iff.rfl
    · exact h1.1 o' d' h2 k
  · intro k s hs
    have hs2 : lookupKey k
        ((getObjectCells ((sh.remove o).1).cellSize x y w h).foldl
          (fun cs k' => cellInsert cs k' o) ((sh.remove o).1).cells) = some s := hs
    exact foldl_cellInsert_nonempty _ h1.2 k s hs2

theorem inv_update (sh : SpatialHash) (o : Obj) (nx ny nw nh : ℚ)
    (hInv : sh.Inv) : (sh.update o nx ny nw nh).Inv := by
  cases hd : lookupKey o sh.objects with
  | none =>
      have he : sh.update o nx ny nw nh = sh.add o nx ny nw nh := by
        unfold SpatialHash.update; rw [hd]
      rw [he]
      exact inv_add sh o nx ny nw nh hInv
  | some d =>
      have he : sh.update o nx ny nw nh =
          (if d.x = nx ∧ d.y = ny ∧ d.width = nw ∧ d.height = nh then sh
           else if arraysEqual d.cellKeys (getObjectCells sh.cellSize nx ny nw nh) then
             { sh with objects := setKey o ⟨d.cellKeys, nx, ny, nw, nh⟩ sh.objects }
           else
             { sh with
               cells := (getObjectCells sh.cellSize nx ny nw nh).foldl
                 (fun cs k => cellInsert cs k o)
                 (d.cellKeys.foldl (fun cs k => cellRemoveObj cs k o) sh.cells),
               objects := setKey o
                 ⟨getObjectCells sh.cellSize nx ny nw nh, nx, ny, nw, nh⟩
                 sh.objects }) := by
        unfold SpatialHash.update; rw [hd]
      rw [he]
      by_cases hsame : d.x = nx ∧ d.y = ny ∧ d.width = nw ∧ d.height = nh
      · rw [if_pos hsame]; exact hInv
      · rw [if_neg hsame]
        by_cases harr :
            arraysEqual d.cellKeys (getObjectCells sh.cellSize nx ny nw nh) = true
        · rw [if_pos harr]
          have hmul : (d.cellKeys : Multiset CellKey)
              = ((getObjectCells sh.cellSize nx ny nw nh : List CellKey) :
                  Multiset CellKey) := of_decide_eq_true harr
          constructor
          · intro o' d' hd' k
            have hd2 : lookupKey o'
                (setKey o ⟨d.cellKeys, nx, ny, nw, nh⟩ sh.objects) = some d' := hd'
            rcases lookupKey_setKey_cases hd2 with h2 | h2
            · subst h2
              show k ∈ d.cellKeys ↔ k ∈ getObjectCells sh.cellSize nx ny nw nh
              rw [← Multiset.mem_coe, hmul, Multiset.mem_coe]
            · exact hInv.1 o' d' h2 k
          · intro k s hs
            exact hInv.2 k s hs
        · rw [if_neg harr]
          constructor
          · intro o' d' hd' k
            have hd2 : lookupKey o'
                (setKey o ⟨getObjectCells sh.cellSize nx ny nw nh, nx, ny, nw, nh⟩
                  sh.objects) = some d' := hd'
            rcases lookupKey_setKey_cases hd2 with h2 | h2
            · subst h2
              exact Iff.rfl
            · exact hInv.1 o' d' h2 k
          · intro k s hs
            exact foldl_cellInsert_nonempty _
              (foldl_cellRemoveObj_nonempty _ hInv.2) k s hs

/-! ## Claim C1 -/

/-- C1 (amended): with width and height at least 1 (in particular with
the default 1 by 1 size), inserting an object registers it in the cell
that contains its position, so queryPoint at the exact position with
radius 0 includes it; and after remove the object is absent from every
cell recorded for it.  The degenerate-size clause of the original claim
is refuted separately: a zero or negative size can produce an empty
cell list, not an at-least-1-by-1 one. -/
theorem c1_insert_query_remove (sh : SpatialHash) (o : Obj) (x y w h : ℚ)
    (hcs : 0 < sh.cellSize) (hw : 1 ≤ w) (hh : 1 ≤ h) :
    o ∈ (sh.add o x y w h).queryPoint x y 0 ∧
    (∀ d, lookupKey o sh.objects = some d →
      ∀ k, k ∈ d.cellKeys →
        ∀ s, lookupKey k ((sh.remove o).1).cells = some s → o ∉ s) := by
  constructor
  · have hcs1 : ((sh.remove o).1).cellSize = sh.cellSize := remove_fst_cellSize sh o
    have hk0 : getCellKey sh.cellSize x y
        ∈ getObjectCells ((sh.remove o).1).cellSize x y w h := by
      rw [hcs1]
      exact getCellKey_mem_getObjectCells hcs hw hh
    obtain ⟨s, hs, ho⟩ :=
      @foldl_cellInsert_mem ((sh.remove o).1).cells
        (getCellKey sh.cellSize x y) o _ hk0
    show o ∈ (sh.add o x y w h).queryPoint x y 0
    unfold SpatialHash.queryPoint
    rw [if_pos rfl]
    have hsize : (sh.add o x y w h).cellSize = sh.cellSize := remove_fst_cellSize sh o
    have hcells : lookupKey (getCellKey (sh.add o x y w h).cellSize x y)
        (sh.add o x y w h).cells = some s := by
      rw [hsize]
      exact hs
    rw [hcells]
    exact ho
  · intro d hd k hk s hs
    have he : (sh.remove o).1 =
        { sh with
          cells := d.cellKeys.foldl (fun cs k' => cellRemoveObj cs k' o) sh.cells,
          objects := delKey o sh.objects } := by
      unfold SpatialHash.remove; rw [hd]
    rw [he] at hs
    have hs2 : lookupKey k
        (d.cellKeys.foldl (fun cs k' => cellRemoveObj cs k' o) sh.cells)
        = some s := hs
    exact foldl_cellRemoveObj_notin d.cellKeys hk s hs2

/-- Witness for C1 at a concrete input: a fresh hash with cell size 20,
object 0 inserted at position 5, 5 with the default 1 by 1 size. -/
theorem c1_witness :
    0 ∈ ((SpatialHash.mk0 20).add 0 5 5 1 1).queryPoint 5 5 0 :=
  (c1_insert_query_remove (SpatialHash.mk0 20) 0 5 5 1 1
    (by norm_num [SpatialHash.mk0]) (by norm_num) (by norm_num)).1

/-- C1 counterexample: inserting object 0 at position 0, 0 with the
degenerate width 0 registers it in no cell at all (the loop bound
floor of (x + width - 1) / cellSize falls below the start cell), so
queryPoint at the exact position with radius 0 does not include it,
refuting the claim's treat-as-at-least-1-by-1 reading for degenerate
sizes. -/
theorem c1_counterexample :
    ¬ (0 ∈ ((SpatialHash.mk0 20).add 0 0 0 0 1).queryPoint 0 0 0) := by
  have h1 : ((SpatialHash.mk0 20).add 0 0 0 0 1).queryPoint 0 0 0 = [] := by
    norm_num [SpatialHash.mk0, SpatialHash.add, SpatialHash.remove,
      SpatialHash.queryPoint, getObjectCells, getCellKey, intRange,
      lookupKey, setKey, cellInsert]
  rw [h1]
  simp

/-! ## Claim C10 -/

/-- C10: the two SpatialIndex invariants (recorded cell-key set equals
the overlapped-cell set of the recorded bounding box; no empty cell
entry persists) are preserved by add, remove, update and clear, from
any state satisfying them. -/
theorem c10_invariants_preserved (sh : SpatialHash) (o1 o2 o3 : Obj)
    (x y w h nx ny nw nh : ℚ) (hInv : sh.Inv) :
    (sh.add o1 x y w h).Inv ∧ ((sh.remove o2).1).Inv ∧
    (sh.update o3 nx ny nw nh).Inv ∧ (sh.clear).Inv :=
  ⟨inv_add sh o1 x y w h hInv, inv_remove sh o2 hInv,
   inv_update sh o3 nx ny nw nh hInv, inv_clear sh⟩

/-- Witness for C10 at a concrete input: the fresh hash with cell size
20 satisfies the invariants, and all four operations preserve them. -/
theorem c10_witness :
    ((SpatialHash.mk0 20).add 0 1 2 3 4).Inv ∧
    (((SpatialHash.mk0 20).remove 1).1).Inv ∧
    ((SpatialHash.mk0 20).update 2 5 6 7 8).Inv ∧
    ((SpatialHash.mk0 20).clear).Inv :=
  c10_invariants_preserved (SpatialHash.mk0 20) 0 1 2 1 2 3 4 5 6 7 8
    (inv_mk0 20)

/-! ## Lemmas about the force field -/

theorem applyGravityForce_out_of_range (w : GravityWell) (alive : Bool)
    (hx hy dist s3 : ℚ) (hgt : w.radius / 20 < dist) :
    applyGravityForce w alive hx hy dist s3 = none := by
  unfold applyGravityForce
  by_cases hc : ¬ (w.active = true) ∨ ¬ (alive = true)
  · rw [if_pos hc]
  · rw [if_neg hc, if_pos hgt]

theorem applyGravityForce_in_range (w : GravityWell) (hx hy dist s3 : ℚ)
    (hact : w.active = true) (hin : dist ≤ w.radius / 20) :
    applyGravityForce w true hx hy dist s3 =
      some (perKindForce w (w.x - (hx + 1/2)) (w.y - (hy + 1/2)) dist s3) := by
  unfold applyGravityForce
  rw [if_neg (by simp [hact]), if_neg (not_lt.mpr hin)]

theorem abs_clampForce_le (v : ℚ) : |clampForce v| ≤ 1/2 := by
  rw [abs_le]
  constructor
  · exact le_max_left _ _
  · exact max_le (by norm_num) (min_le_left _ _)

theorem clampForce_of_pos {v : ℚ} (hv : 0 < v) : 0 < clampForce v :=
  lt_max_of_lt_right (lt_min (by norm_num) hv)

theorem clampForce_of_neg {v : ℚ} (hv : v < 0) : clampForce v < 0 := by
  have hmin : min (1/2 : ℚ) v = v := min_eq_right (by linarith)
  unfold clampForce
  rw [hmin]
  exact max_lt (by norm_num) hv

theorem clampForce_zero : clampForce 0 = 0 := by
  unfold clampForce
  norm_num

theorem calculateAttractiveForce_zero (st dx dy : ℚ) (isY : Bool) :
    calculateAttractiveForce st dx dy 0 isY = 0 := by
  unfold calculateAttractiveForce
  rw [if_pos rfl]

theorem calculateAttractiveForce_of_ne (st dx dy dist : ℚ) (isY : Bool)
    (hd : dist ≠ 0) :
    calculateAttractiveForce st dx dy dist isY =
      clampForce (st * (if isY then dy else dx) / (dist * dist + 1)) := by
  unfold calculateAttractiveForce
  rw [if_neg hd]

/-- The sign of the clamped attract component agrees with the sign of
the offset component when the strength is positive, which is what makes
the attract force point toward the centre and the repel force away. -/
theorem clampForce_component_sign {st D : ℚ} (hst : 0 < st) (hD : 0 < D)
    (c : ℚ) :
    0 ≤ clampForce (st * c / D) * c ∧
      (c ≠ 0 → 0 < clampForce (st * c / D) * c) := by
  rcases lt_trichotomy c 0 with hc | hc | hc
  · have hneg : st * c / D < 0 := div_neg_of_neg_of_pos (mul_neg_of_pos_of_neg hst hc) hD
    have := clampForce_of_neg hneg
    constructor
    · exact le_of_lt (mul_pos_of_neg_of_neg this hc)
    · intro _; exact mul_pos_of_neg_of_neg this hc
  · subst hc
    simp [clampForce_zero]
  · have hpos : 0 < st * c / D := div_pos (mul_pos hst hc) hD
    have := clampForce_of_pos hpos
    constructor
    · exact le_of_lt (mul_pos this hc)
    · intro _; exact mul_pos this hc

theorem abs_calculateAttractiveForce_le (st dx dy dist : ℚ) (isY : Bool) :
    |calculateAttractiveForce st dx dy dist isY| ≤ 1/2 := by
  unfold calculateAttractiveForce
  by_cases hd : dist = 0
  · rw [if_pos hd]; norm_num
  · rw [if_neg hd]; exact abs_clampForce_le _

/-! ## Claim C2 -/

/-- C2 (amended): for attract, repel and pulse fields, a target at
distance exactly 0 receives the zero force vector and every returned
force component is finite and clamped to the fixed per-axis bound 0.5
(for pulse, given the sine bound).  For a vortex field the original
claim fails: at distance 0 the tangential term divides by zero and both
components are non-finite (NaN in JS), and away from 0 the tangential
term is added outside the clamp (refuted in the counterexample). -/
theorem c2_zero_distance_force (w : GravityWell) (hx hy dist s3 : ℚ)
    (hact : w.active = true) (hrad : 0 ≤ w.radius)
    (hs3l : -1 ≤ s3) (hs3r : s3 ≤ 1) :
    (dist = 0 → w.type ≠ WellType.vortex →
      applyGravityForce w true hx hy dist s3
        = some (JSVal.fin 0, JSVal.fin 0)) ∧
    (dist = 0 → w.type = WellType.vortex →
      applyGravityForce w true hx hy dist s3
        = some (JSVal.undef, JSVal.undef)) ∧
    (w.type ≠ WellType.vortex →
      ∀ p, applyGravityForce w true hx hy dist s3 = some p →
        ClampedFin p.1 ∧ ClampedFin p.2) := by
  have hin0 : (0 : ℚ) ≤ w.radius / 20 := div_nonneg hrad (by norm_num)
  refine ⟨?_, ?_, ?_⟩
  · intro h0 hv
    subst h0
    rw [applyGravityForce_in_range w hx hy 0 s3 hact hin0]
    unfold perKindForce
    cases htype : w.type with
    | attract => simp [calculateAttractiveForce_zero]
    | repel => simp [calculateAttractiveForce_zero]
    | vortex => exact absurd htype hv
    | pulse => simp [calculateAttractiveForce_zero]
  · intro h0 hv
    subst h0
    rw [applyGravityForce_in_range w hx hy 0 s3 hact hin0]
    unfold perKindForce
    rw [hv]
    simp [jsDivQ, jsMul, jsSub, jsAdd]
  · intro hv p hp
    by_cases hgt : w.radius / 20 < dist
    · rw [applyGravityForce_out_of_range w true hx hy dist s3 hgt] at hp
      cases hp
    · rw [applyGravityForce_in_range w hx hy dist s3 hact (not_lt.mp hgt)] at hp
      have hp2 : perKindForce w (w.x - (hx + 1/2)) (w.y - (hy + 1/2)) dist s3
          = p := Option.some_injective _ hp
      subst hp2
      unfold perKindForce
      cases htype : w.type with
      | attract =>
          exact ⟨⟨_, rfl, abs_calculateAttractiveForce_le _ _ _ _ _⟩,
            ⟨_, rfl, abs_calculateAttractiveForce_le _ _ _ _ _⟩⟩
      | repel =>
          refine ⟨⟨_, rfl, ?_⟩, ⟨_, rfl, ?_⟩⟩ <;>
            rw [abs_neg] <;> exact abs_calculateAttractiveForce_le _ _ _ _ _
      | vortex => exact absurd htype hv
      | pulse =>
          have hi : |s3 * (1/2) + 1/2| ≤ 1 := by
            rw [abs_le]; constructor <;> linarith
          refine ⟨⟨_, rfl, ?_⟩, ⟨_, rfl, ?_⟩⟩ <;>
            · rw [abs_mul]
              calc |calculateAttractiveForce _ _ _ _ _| * |s3 * (1/2) + 1/2|
                  ≤ (1/2) * 1 := by
                    exact mul_le_mul (abs_calculateAttractiveForce_le _ _ _ _ _)
                      hi (abs_nonneg _) (by norm_num)
                _ = 1/2 := by norm_num

/-- Witness for C2 at a concrete input: an active attract well at the
centre of the target cell, distance 0, yields the zero vector. -/
theorem c2_witness :
    applyGravityForce ⟨1/2, 1/2, 1, 50, WellType.attract, true⟩ true 0 0 0 0
      = some (JSVal.fin 0, JSVal.fin 0) :=
  (c2_zero_distance_force ⟨1/2, 1/2, 1, 50, WellType.attract, true⟩ 0 0 0 0
    rfl (by norm_num) (by norm_num) (by norm_num)).1 rfl (by simp)

/-- C2 counterexample: a vortex well targeted at its exact centre
(distance 0) computes the non-finite pair (0/0 in the tangential term),
not the zero vector; and a strength-100 vortex at distance 1 returns an
x component of -15, far beyond the fixed 0.5 clamp.  The stated
squared-distance identities confirm the distance arguments are the true
Euclidean distances of those configurations. -/
theorem c2_counterexample :
    applyGravityForce ⟨1/2, 1/2, 1, 50, WellType.vortex, true⟩ true 0 0 0 0
      = some (JSVal.undef, JSVal.undef) ∧
    applyGravityForce ⟨1/2, 3/2, 100, 50, WellType.vortex, true⟩ true 0 0 1 0
      = some (JSVal.fin (-15), JSVal.fin (1/2)) ∧
    ¬ (|(-15 : ℚ)| ≤ 1/2) ∧
    ((0 : ℚ) ^ 2 = ((1:ℚ)/2 - (0 + 1/2)) ^ 2 + ((1:ℚ)/2 - (0 + 1/2)) ^ 2) ∧
    ((1 : ℚ) ^ 2 = ((1:ℚ)/2 - (0 + 1/2)) ^ 2 + ((3:ℚ)/2 - (0 + 1/2)) ^ 2) := by
  refine ⟨?_, ?_, by norm_num, by norm_num, by norm_num⟩
  · norm_num [applyGravityForce, perKindForce, calculateAttractiveForce,
      calculateTangentialForce, clampForce, jsDivQ, jsMul, jsSub, jsAdd]
  · norm_num [applyGravityForce, perKindForce, calculateAttractiveForce,
      calculateTangentialForce, clampForce, jsDivQ, jsMul, jsSub, jsAdd]

/-! ## Claim C3 -/

/-- C3: for an in-range target at distance d greater than 0, the attract
force is componentwise clamp(strength * component / (d * d + 1)) with
clamp bound 0.5, the repel force is its exact negation, and for
positive strength the attract force has positive inner product with the
offset toward the centre (points toward it) while the repel force has
negative inner product (points away); both respect the clamp bound. -/
theorem c3_attract_repel_law (x0 y0 st r hx hy dist s3 : ℚ)
    (hd : dist ^ 2 = (x0 - (hx + 1/2)) ^ 2 + (y0 - (hy + 1/2)) ^ 2)
    (hpos : 0 < dist) (hin : dist ≤ r / 20) :
    (applyGravityForce ⟨x0, y0, st, r, WellType.attract, true⟩ true hx hy dist s3
      = some
        (JSVal.fin (clampForce (st * (x0 - (hx + 1/2)) / (dist * dist + 1))),
         JSVal.fin (clampForce (st * (y0 - (hy + 1/2)) / (dist * dist + 1))))) ∧
    (applyGravityForce ⟨x0, y0, st, r, WellType.repel, true⟩ true hx hy dist s3
      = some
        (JSVal.fin (-(clampForce (st * (x0 - (hx + 1/2)) / (dist * dist + 1)))),
         JSVal.fin (-(clampForce (st * (y0 - (hy + 1/2)) / (dist * dist + 1)))))) ∧
    (0 < st →
      0 < clampForce (st * (x0 - (hx + 1/2)) / (dist * dist + 1)) * (x0 - (hx + 1/2))
          + clampForce (st * (y0 - (hy + 1/2)) / (dist * dist + 1)) * (y0 - (hy + 1/2)) ∧
      (-(clampForce (st * (x0 - (hx + 1/2)) / (dist * dist + 1)))) * (x0 - (hx + 1/2))
          + (-(clampForce (st * (y0 - (hy + 1/2)) / (dist * dist + 1)))) * (y0 - (hy + 1/2))
        < 0) ∧
    |clampForce (st * (x0 - (hx + 1/2)) / (dist * dist + 1))| ≤ 1/2 ∧
    |clampForce (st * (y0 - (hy + 1/2)) / (dist * dist + 1))| ≤ 1/2 := by
  have hne : dist ≠ 0 := ne_of_gt hpos
  refine ⟨?_, ?_, ?_, abs_clampForce_le _, abs_clampForce_le _⟩
  · rw [applyGravityForce_in_range _ hx hy dist s3 rfl hin]
    show some (JSVal.fin (calculateAttractiveForce st (x0 - (hx + 1/2))
        (y0 - (hy + 1/2)) dist false),
      JSVal.fin (calculateAttractiveForce st (x0 - (hx + 1/2))
        (y0 - (hy + 1/2)) dist true)) = _
    rw [calculateAttractiveForce_of_ne _ _ _ _ _ hne,
      calculateAttractiveForce_of_ne _ _ _ _ _ hne]
    simp
  · rw [applyGravityForce_in_range _ hx hy dist s3 rfl hin]
    show some (JSVal.fin (-(calculateAttractiveForce st (x0 - (hx + 1/2))
        (y0 - (hy + 1/2)) dist false)),
      JSVal.fin (-(calculateAttractiveForce st (x0 - (hx + 1/2))
        (y0 - (hy + 1/2)) dist true))) = _
    rw [calculateAttractiveForce_of_ne _ _ _ _ _ hne,
      calculateAttractiveForce_of_ne _ _ _ _ _ hne]
    simp
  · intro hst
    have hD : 0 < dist * dist + 1 := by nlinarith
    obtain ⟨h1, h1p⟩ := clampForce_component_sign hst hD (x0 - (hx + 1/2))
    obtain ⟨h2, h2p⟩ := clampForce_component_sign hst hD (y0 - (hy + 1/2))
    have hcomp : x0 - (hx + 1/2) ≠ 0 ∨ y0 - (hy + 1/2) ≠ 0 := by
      by_contra hcon
      push_neg at hcon
      rw [hcon.1, hcon.2] at hd
      nlinarith
    have hdot : 0 < clampForce (st * (x0 - (hx + 1/2)) / (dist * dist + 1))
        * (x0 - (hx + 1/2))
        + clampForce (st * (y0 - (hy + 1/2)) / (dist * dist + 1))
        * (y0 - (hy + 1/2)) := by
      rcases hcomp with h | h
      · have := h1p h; linarith
      · have := h2p h; linarith
    exact ⟨hdot, by linarith⟩

/-- Witness for C3 at a concrete input: strength 1 wells at grid
position 3.5, 4.5 acting on a head at the origin (offsets 3 and 4,
distance 5), radius 200 so the target is in range. -/
theorem c3_witness :
    applyGravityForce ⟨7/2, 9/2, 1, 200, WellType.attract, true⟩ true 0 0 5 0
      = some
        (JSVal.fin (clampForce (1 * ((7:ℚ)/2 - (0 + 1/2)) / (5 * 5 + 1))),
         JSVal.fin (clampForce (1 * ((9:ℚ)/2 - (0 + 1/2)) / (5 * 5 + 1)))) :=
  (c3_attract_repel_law (7/2) (9/2) 1 200 0 0 5 0 (by norm_num) (by norm_num)
    (by norm_num)).1

/-! ## Claim C9 -/

/-- C9 (amended): a force field applies no force to a target whose
distance exceeds radius / 20 (the visual radius in grid units), the
check coming before any per-kind computation; consequently a field with
radius 0 applies no force to any target at positive distance - radius 0
is in range only at distance exactly 0, not unbounded as the original
claim stated (refuted in the counterexample). -/
theorem c9_range_gate (w : GravityWell) (hx hy dist s3 : ℚ) :
    (w.radius / 20 < dist →
      applyGravityForce w true hx hy dist s3 = none) ∧
    (w.radius = 0 → 0 < dist →
      applyGravityForce w true hx hy dist s3 = none) := by
  constructor
  · intro h
    exact applyGravityForce_out_of_range w true hx hy dist s3 h
  · intro h0 hp
    apply applyGravityForce_out_of_range
    rw [h0]
    simpa using hp

/-- Witness for C9 at a concrete input: a radius-0 attract well and a
target at distance 3 receive no force. -/
theorem c9_witness :
    applyGravityForce ⟨7/2, 1/2, 1, 0, WellType.attract, true⟩ true 0 0 3 0
      = none :=
  (c9_range_gate ⟨7/2, 1/2, 1, 0, WellType.attract, true⟩ 0 0 3 0).2 rfl
    (by norm_num)

/-- C9 counterexample: for a radius-0 strength-1 attract field and a
target at distance 2 (offsets -2 and 0, as the squared-distance
identity confirms), the code applies no force at all, while the claim
predicts the inverse-falloff force clamp(1 * (-2) / 5) = -0.4, which is
not zero.  So radius 0 is not unbounded by distance. -/
theorem c9_counterexample :
    applyGravityForce ⟨7/2, 1/2, 1, 0, WellType.attract, true⟩ true 5 0 2 0
      = none ∧
    calculateAttractiveForce 1 (-2) 0 2 false = -(2/5) ∧
    (-((2:ℚ)/5) ≠ 0) ∧
    (2 : ℚ) ^ 2 = ((7:ℚ)/2 - (5 + 1/2)) ^ 2 + ((1:ℚ)/2 - (0 + 1/2)) ^ 2 := by
  refine ⟨?_, ?_, by norm_num, by norm_num⟩
  · norm_num [applyGravityForce]
  · norm_num [calculateAttractiveForce, clampForce]

/-! ## Lemmas about the snake -/

theorem armoredCount_cons (x : Segment) (xs : List Segment) :
    armoredCount (x :: xs)
      = (if x.type = SegType.armored then 1 else 0) + armoredCount xs := by
  unfold armoredCount
  by_cases hx : x.type = SegType.armored <;> simp [List.filter_cons, hx] <;> omega

theorem removeLastArmored_eq_none {l : List Segment}
    (h : armoredCount l = 0) : removeLastArmored l = none := by
  induction l with
  | nil => rfl
  | cons x xs ih =>
      rw [armoredCount_cons] at h
      have hx : ¬ (x.type = SegType.armored) := by
        intro hx; rw [if_pos hx] at h; omega
      have hxs : armoredCount xs = 0 := by
        rw [if_neg hx] at h; omega
      unfold removeLastArmored
      rw [ih hxs, if_neg hx]

theorem removeLastArmored_spec {l : List Segment} (h : 0 < armoredCount l) :
    ∃ l', removeLastArmored l = some l' ∧
      armoredCount l' = armoredCount l - 1 ∧ l'.length = l.length - 1 := by
  induction l with
  | nil => simp [armoredCount] at h
  | cons x xs ih =>
      by_cases hxs : 0 < armoredCount xs
      · obtain ⟨l', h1, h2, h3⟩ := ih hxs
        refine ⟨x :: l', ?_, ?_, ?_⟩
        · unfold removeLastArmored
          rw [h1]
        · rw [armoredCount_cons, armoredCount_cons, h2]
          omega
        · have hxs' : xs ≠ [] := by
            intro hc; rw [hc] at hxs; simp [armoredCount] at hxs
          have : 0 < xs.length := List.length_pos.mpr hxs'
          simp only [List.length_cons, h3]
          omega
      · have hxs0 : armoredCount xs = 0 := by omega
        have hx : x.type = SegType.armored := by
          by_contra hx
          rw [armoredCount_cons, if_neg hx, hxs0] at h
          omega
        refine ⟨xs, ?_, ?_, by simp⟩
        · unfold removeLastArmored
          rw [removeLastArmored_eq_none hxs0, if_pos hx]
        · rw [armoredCount_cons, if_pos hx, hxs0]

theorem removeArmoredSegment_eq (s : Snake) (h0 : Segment)
    (rest rest' : List Segment) (hseg : s.segments = h0 :: rest)
    (hr : removeLastArmored rest = some rest') :
    s.removeArmoredSegment
      = Snake.updateSegmentEffects { s with segments := h0 :: rest' } := by
  have h1 : s.removeArmoredSegment = (match removeLastArmored rest with
      | none => s
      | some r2 =>
          Snake.updateSegmentEffects { s with segments := h0 :: r2 }) := by
    unfold Snake.removeArmoredSegment
    rw [hseg]
  rw [h1, hr]

/-! ## Claim C5 -/

/-- C5: takeDamage on an invulnerable agent returns false with no state
change; a non-invulnerable agent with no armored segments always dies;
with armored segments, survival happens exactly when the random roll is
below min(armorLevel * 0.2, 0.8), and a surviving roll removes exactly
one armored segment (one segment total), grants the 1000 ms
invulnerability window and returns false, while a failing roll kills.
The hypotheses state the maintained consistency between the armor
power-up level and the segment composition (head in front, armored
segments behind it). -/
theorem c5_takeDamage (s : Snake) (roll : ℚ) (h0 : Segment)
    (rest : List Segment) (hseg : s.segments = h0 :: rest)
    (hhd : ¬ (h0.type = SegType.armored))
    (hcons : s.armorLevelPU =
      if 0 < armoredCount s.segments then some (armoredCount s.segments)
      else none) :
    (s.invulnerable = true → s.takeDamage roll = (s, false)) ∧
    (s.invulnerable = false → armoredCount s.segments = 0 →
      s.takeDamage roll = ({ s with alive := false }, true)) ∧
    (s.invulnerable = false → 0 < armoredCount s.segments →
      ((s.takeDamage roll).2 = false ↔
        roll < min ((armoredCount s.segments : ℚ) * (2/10)) (8/10)) ∧
      (roll < min ((armoredCount s.segments : ℚ) * (2/10)) (8/10) →
        (s.takeDamage roll).1.alive = s.alive ∧
        (s.takeDamage roll).1.invulnerable = true ∧
        (s.takeDamage roll).1.invulnerabilityTime = 1000 ∧
        armoredCount (s.takeDamage roll).1.segments
          = armoredCount s.segments - 1 ∧
        (s.takeDamage roll).1.segments.length = s.segments.length - 1) ∧
      (¬ roll < min ((armoredCount s.segments : ℚ) * (2/10)) (8/10) →
        s.takeDamage roll = ({ s with alive := false }, true))) := by
  refine ⟨?_, ?_, ?_⟩
  · intro hinv
    unfold Snake.takeDamage
    rw [if_pos hinv]
  · intro hinv hz
    unfold Snake.takeDamage
    rw [if_neg (by simp [hinv])]
    have hl : s.armorLevel = 0 := by
      unfold Snake.armorLevel
      rw [hcons, if_neg (by omega)]
    rw [if_neg (by rw [hl]; intro hc; exact absurd hc.1 (by omega))]
  · intro hinv hpos
    have hl : s.armorLevel = armoredCount s.segments := by
      unfold Snake.armorLevel
      rw [hcons, if_pos hpos]
    have hrest : 0 < armoredCount rest := by
      rw [hseg, armoredCount_cons, if_neg hhd] at hpos
      omega
    obtain ⟨rest', hr1, hr2, hr3⟩ := removeLastArmored_spec hrest
    have hrem := removeArmoredSegment_eq s h0 rest rest' hseg hr1
    by_cases hroll : roll < min ((armoredCount s.segments : ℚ) * (2/10)) (8/10)
    · have heval : s.takeDamage roll
          = ((s.removeArmoredSegment).setInvulnerable 1000, false) := by
        unfold Snake.takeDamage
        rw [if_neg (by simp [hinv]), if_pos (by rw [hl]; exact ⟨hpos, hroll⟩)]
      refine ⟨by simp [heval, hroll], ?_, fun hc => absurd hroll hc⟩
      intro _
      rw [heval, hrem]
      refine ⟨rfl, rfl, rfl, ?_, ?_⟩
      · show armoredCount (h0 :: rest') = armoredCount s.segments - 1
        rw [armoredCount_cons, if_neg hhd, hseg, armoredCount_cons, if_neg hhd]
        omega
      · show (h0 :: rest').length = s.segments.length - 1
        rw [hseg]
        simp only [List.length_cons, hr3]
        have : 0 < rest.length := by
          rcases rest with _ | _
          · simp [armoredCount] at hrest
          · simp
        omega
    · have heval : s.takeDamage roll = ({ s with alive := false }, true) := by
        unfold Snake.takeDamage
        rw [if_neg (by simp [hinv]),
          if_neg (by rw [hl]; intro hc; exact hroll hc.2)]
      exact ⟨by simp [heval, hroll], fun hc => absurd hc hroll, fun _ => heval⟩

/-- Witness for C5 at a concrete input: a snake with one armored tail
segment, armor power-up level 1, not invulnerable; a roll of 0.1 is
below min(0.2, 0.8), so the agent survives, sheds the armored segment
and becomes invulnerable for 1000 ms. -/
theorem c5_witness :
    ((⟨0, SnakeType.player, [⟨5, 5, SegType.head⟩, ⟨5, 5, SegType.armored⟩],
        (1, 0), (1, 0), true, 1, 1, false, 0, false, 0, (0, 0), some 1,
        none⟩ : Snake).takeDamage (1/10)).2 = false := by
  have h := c5_takeDamage
    ⟨0, SnakeType.player, [⟨5, 5, SegType.head⟩, ⟨5, 5, SegType.armored⟩],
      (1, 0), (1, 0), true, 1, 1, false, 0, false, 0, (0, 0), some 1, none⟩
    (1/10) ⟨5, 5, SegType.head⟩ [⟨5, 5, SegType.armored⟩] rfl (by decide)
    (by decide)
  exact ((h.2.2 rfl (by decide)).1).mpr
    (by norm_num [show armoredCount [(⟨5, 5, SegType.head⟩ : Segment),
      ⟨5, 5, SegType.armored⟩] = 1 from rfl])

/-! ## Claim C6 -/

theorem getCurrentDirectionName_dirVec (s : Snake) (c : DirName)
    (hdir : s.direction = dirVec c) : getCurrentDirectionName s = c := by
  cases c <;> simp [getCurrentDirectionName, dirVec] at hdir ⊢ <;> simp [hdir]

/-- C6: for a living agent whose current direction is the cardinal
vector of c, commanding the exact opposite of c leaves the whole state
(in particular the buffered direction) unchanged; commanding either
perpendicular direction replaces the buffered direction with its
vector; no setDirection call ever changes the current direction; and
the buffered direction becomes current exactly at the next update. -/
theorem c6_setDirection_buffering (s : Snake) (c d : DirName) (dt : ℚ)
    (halive : s.alive = true) (hdir : s.direction = dirVec c) :
    (s.setDirection (oppositeDir c) = s) ∧
    (d ≠ c → d ≠ oppositeDir c →
      (s.setDirection d).nextDirection = dirVec d ∧
      (s.setDirection d).direction = s.direction) ∧
    (∀ d', (s.setDirection d').direction = s.direction) ∧
    ((s.update dt).direction = s.nextDirection) := by
  have hname := getCurrentDirectionName_dirVec s c hdir
  refine ⟨?_, ?_, ?_, ?_⟩
  · unfold Snake.setDirection
    rw [if_neg (by simp [halive]), if_pos (by rw [hname]; cases c <;> rfl)]
  · intro hne1 hne2
    have hop : ¬ (oppositeDir d = getCurrentDirectionName s) := by
      rw [hname]
      cases c <;> cases d <;> simp_all [oppositeDir]
    unfold Snake.setDirection
    rw [if_neg (by simp [halive]), if_neg hop]
    exact ⟨rfl, rfl⟩
  · intro d'
    unfold Snake.setDirection
    split_ifs <;> rfl
  · unfold Snake.update
    rw [if_neg (by simp [halive])]

/-- Witness for C6 at a concrete input: a fresh player snake moving
right; commanding left is a no-op. -/
theorem c6_witness :
    (Snake.mk0 0 SnakeType.player 5 5).setDirection (oppositeDir DirName.right)
      = Snake.mk0 0 SnakeType.player 5 5 :=
  (c6_setDirection_buffering (Snake.mk0 0 SnakeType.player 5 5) DirName.right
    DirName.up (1/5) rfl rfl).1

/-! ## Lemmas about the engine collision handlers -/

theorem grow_length (sn : Snake) (k : SegType) (halive : sn.alive = true)
    (hne : sn.segments ≠ []) :
    (sn.grow k).segments.length = sn.segments.length + 1 := by
  unfold Snake.grow
  rw [if_neg (by simp [halive])]
  obtain ⟨t, ht⟩ := Option.isSome_iff_exists.mp (List.getLast?_isSome.mpr hne)
  rw [ht]
  simp [Snake.updateSegmentEffects]

theorem growById_player (e : Engine) (gh : List Snake) (i : ℕ)
    (h : e.playerSnake.id = i) :
    growById e gh i
      = ({ e with playerSnake := e.playerSnake.grow SegType.normal }, gh) := by
  unfold growById
  rw [if_pos h]

theorem growById_other (e : Engine) (gh : List Snake) (i : ℕ)
    (h : ¬ (e.playerSnake.id = i)) :
    growById e gh i
      = ({ e with
            enemies := (e.enemies.map
              (fun t => if t.id = i then t.grow SegType.normal else t)) },
         gh.map (fun t => if t.id = i then t.grow SegType.normal else t)) := by
  unfold growById
  rw [if_neg h]

theorem handleSnakeCollision_player (e : Engine)
    (hp : e.playerSnake.type = SnakeType.player) (hlives : 0 < e.lives - 1) :
    handleSnakeCollision e e.playerSnake
      = (Engine.respawnPlayer { e with lives := e.lives - 1 }, []) := by
  unfold handleSnakeCollision
  rw [if_pos hp, if_neg (by omega)]

theorem handleSnakeCollision_enemy (e : Engine) (s2 : Snake)
    (h2 : s2.type = SnakeType.enemy)
    (hfind : e.enemies.find? (fun t => decide (t.id = s2.id)) = some s2) :
    handleSnakeCollision e s2
      = ({ e with
            enemies := e.enemies.eraseP (fun u => decide (u.id = s2.id)),
            score := e.score + 50 }, [s2]) := by
  unfold handleSnakeCollision
  rw [if_neg (by rw [h2]; intro hc; cases hc), hfind]

/-! ## Claim C4 -/

/-- C4 (amended): in the snake-versus-snake collision handler, no alive
flag is ever set to false.  With equal segment counts both snakes are
handled as casualties: the player loses a life and is respawned alive
(given remaining lives), and the enemy is removed from the active list
for 50 points while its own state, alive flag included, is untouched
(it is returned unchanged among the removed snakes).  With a larger
player the enemy is removed and the player grows by one segment; with a
larger enemy the player loses a life and respawns and the enemy grows
by one segment in place. -/
theorem c4_collision_outcomes (e : Engine) (s2 : Snake) (gh : List Snake)
    (hp : e.playerSnake.type = SnakeType.player)
    (h2 : s2.type = SnakeType.enemy)
    (hfind : e.enemies.find? (fun t => decide (t.id = s2.id)) = some s2)
    (hpid : ¬ (e.playerSnake.id = s2.id))
    (hlives : 0 < e.lives - 1) :
    (e.playerSnake.segments.length = s2.segments.length →
      (handleSnakeVsSnakeCollision e gh e.playerSnake s2).1.lives
          = e.lives - 1 ∧
      (handleSnakeVsSnakeCollision e gh e.playerSnake s2).1.score
          = e.score + 50 ∧
      (handleSnakeVsSnakeCollision e gh e.playerSnake s2).1.enemies
          = e.enemies.eraseP (fun u => decide (u.id = s2.id)) ∧
      (handleSnakeVsSnakeCollision e gh e.playerSnake s2).1.playerSnake.alive
          = true ∧
      (handleSnakeVsSnakeCollision e gh e.playerSnake s2).2 = gh ++ [s2]) ∧
    (s2.segments.length < e.playerSnake.segments.length →
      (handleSnakeVsSnakeCollision e gh e.playerSnake s2).1.playerSnake
          = e.playerSnake.grow SegType.normal ∧
      (handleSnakeVsSnakeCollision e gh e.playerSnake s2).1.enemies
          = e.enemies.eraseP (fun u => decide (u.id = s2.id)) ∧
      (handleSnakeVsSnakeCollision e gh e.playerSnake s2).1.score
          = e.score + 50 ∧
      (handleSnakeVsSnakeCollision e gh e.playerSnake s2).1.lives = e.lives) ∧
    (e.playerSnake.segments.length < s2.segments.length →
      (handleSnakeVsSnakeCollision e gh e.playerSnake s2).1.lives
          = e.lives - 1 ∧
      (handleSnakeVsSnakeCollision e gh e.playerSnake s2).1.playerSnake.alive
          = true ∧
      (handleSnakeVsSnakeCollision e gh e.playerSnake s2).1.enemies
          = e.enemies.map
              (fun t => if t.id = s2.id then t.grow SegType.normal else t)) ∧
    (∀ sn : Snake, sn.alive = true → sn.segments ≠ [] →
      (sn.grow SegType.normal).segments.length = sn.segments.length + 1) := by
  refine ⟨?_, ?_, ?_, fun sn ha hn => grow_length sn SegType.normal ha hn⟩
  · intro heq
    have hstep : handleSnakeVsSnakeCollision e gh e.playerSnake s2
        = ((handleSnakeCollision (handleSnakeCollision e e.playerSnake).1 s2).1,
           gh ++ (handleSnakeCollision e e.playerSnake).2
              ++ (handleSnakeCollision
                    (handleSnakeCollision e e.playerSnake).1 s2).2) := by
      unfold handleSnakeVsSnakeCollision
      rw [if_neg (by omega), if_neg (by omega)]
    rw [hstep, handleSnakeCollision_player e hp hlives,
      handleSnakeCollision_enemy
        (Engine.respawnPlayer { e with lives := e.lives - 1 }) s2 h2 hfind]
    refine ⟨rfl, rfl, rfl, rfl, ?_⟩
    simp
  · intro hlt
    have hstep : handleSnakeVsSnakeCollision e gh e.playerSnake s2
        = growById (handleSnakeCollision e s2).1
            (gh ++ (handleSnakeCollision e s2).2) e.playerSnake.id := by
      unfold handleSnakeVsSnakeCollision
      rw [if_pos hlt]
    rw [hstep, handleSnakeCollision_enemy e s2 h2 hfind,
      growById_player _ _ _ rfl]
    exact ⟨rfl, rfl, rfl, rfl⟩
  · intro hlt
    have hstep : handleSnakeVsSnakeCollision e gh e.playerSnake s2
        = growById (handleSnakeCollision e e.playerSnake).1
            (gh ++ (handleSnakeCollision e e.playerSnake).2) s2.id := by
      unfold handleSnakeVsSnakeCollision
      rw [if_neg (by omega), if_pos hlt]
    have h3 : handleSnakeVsSnakeCollision e gh e.playerSnake s2
        = growById (Engine.respawnPlayer { e with lives := e.lives - 1 })
            (gh ++ []) s2.id := by
      rw [hstep, handleSnakeCollision_player e hp hlives]
    rw [h3, growById_other (Engine.respawnPlayer { e with lives := e.lives - 1 })
      (gh ++ []) s2.id hpid]
    exact ⟨rfl, rfl, rfl⟩

/-- Witness for C4 at a concrete input: a 3-lives engine, one-segment
player and one-segment enemy overlapping at cell 5, 5; the equal-length
branch leaves the player alive (it respawns at the cost of a life). -/
theorem c4_witness :
    (handleSnakeVsSnakeCollision
      ⟨40, 30, GState.running, 0, 3,
        ⟨0, SnakeType.player, [⟨5, 5, SegType.head⟩], (1, 0), (1, 0), true,
          1, 1, false, 0, false, 0, (0, 0), none, none⟩,
        [⟨1, SnakeType.enemy, [⟨5, 5, SegType.head⟩], (1, 0), (1, 0), true,
          1, 1, false, 0, false, 0, (0, 0), none, none⟩]⟩
      []
      (⟨40, 30, GState.running, 0, 3,
        ⟨0, SnakeType.player, [⟨5, 5, SegType.head⟩], (1, 0), (1, 0), true,
          1, 1, false, 0, false, 0, (0, 0), none, none⟩,
        [⟨1, SnakeType.enemy, [⟨5, 5, SegType.head⟩], (1, 0), (1, 0), true,
          1, 1, false, 0, false, 0, (0, 0), none, none⟩]⟩ : Engine).playerSnake
      ⟨1, SnakeType.enemy, [⟨5, 5, SegType.head⟩], (1, 0), (1, 0), true,
        1, 1, false, 0, false, 0, (0, 0), none, none⟩).1.playerSnake.alive
      = true :=
  (((c4_collision_outcomes
    ⟨40, 30, GState.running, 0, 3,
      ⟨0, SnakeType.player, [⟨5, 5, SegType.head⟩], (1, 0), (1, 0), true,
        1, 1, false, 0, false, 0, (0, 0), none, none⟩,
      [⟨1, SnakeType.enemy, [⟨5, 5, SegType.head⟩], (1, 0), (1, 0), true,
        1, 1, false, 0, false, 0, (0, 0), none, none⟩]⟩
    ⟨1, SnakeType.enemy, [⟨5, 5, SegType.head⟩], (1, 0), (1, 0), true,
      1, 1, false, 0, false, 0, (0, 0), none, none⟩
    [] rfl rfl rfl (by decide) (by decide)).1 rfl).2.2.2).1

/-- C4 counterexample: running the full snake-versus-snake collision
pass on that engine, the player ends the tick alive (respawned with a
life lost; the enemy is removed from the list and keeps its alive flag)
- the claim that an equal-length head-on collision marks both agents
dead (alive = false) in that pass is false. -/
theorem c4_counterexample :
    (checkSnakeVsSnakeCollisions
      ⟨40, 30, GState.running, 0, 3,
        ⟨0, SnakeType.player, [⟨5, 5, SegType.head⟩], (1, 0), (1, 0), true,
          1, 1, false, 0, false, 0, (0, 0), none, none⟩,
        [⟨1, SnakeType.enemy, [⟨5, 5, SegType.head⟩], (1, 0), (1, 0), true,
          1, 1, false, 0, false, 0, (0, 0), none, none⟩]⟩).playerSnake.alive
        = true ∧
    (checkSnakeVsSnakeCollisions
      ⟨40, 30, GState.running, 0, 3,
        ⟨0, SnakeType.player, [⟨5, 5, SegType.head⟩], (1, 0), (1, 0), true,
          1, 1, false, 0, false, 0, (0, 0), none, none⟩,
        [⟨1, SnakeType.enemy, [⟨5, 5, SegType.head⟩], (1, 0), (1, 0), true,
          1, 1, false, 0, false, 0, (0, 0), none, none⟩]⟩).lives = 2 ∧
    (checkSnakeVsSnakeCollisions
      ⟨40, 30, GState.running, 0, 3,
        ⟨0, SnakeType.player, [⟨5, 5, SegType.head⟩], (1, 0), (1, 0), true,
          1, 1, false, 0, false, 0, (0, 0), none, none⟩,
        [⟨1, SnakeType.enemy, [⟨5, 5, SegType.head⟩], (1, 0), (1, 0), true,
          1, 1, false, 0, false, 0, (0, 0), none, none⟩]⟩).score = 50 ∧
    (checkSnakeVsSnakeCollisions
      ⟨40, 30, GState.running, 0, 3,
        ⟨0, SnakeType.player, [⟨5, 5, SegType.head⟩], (1, 0), (1, 0), true,
          1, 1, false, 0, false, 0, (0, 0), none, none⟩,
        [⟨1, SnakeType.enemy, [⟨5, 5, SegType.head⟩], (1, 0), (1, 0), true,
          1, 1, false, 0, false, 0, (0, 0), none, none⟩]⟩).enemies = [] := by
  refine ⟨?_, ?_, ?_, ?_⟩ <;> decide

/-! ## Lemmas about the constellation manager -/

theorem selectNextPattern_preserves (st : CMState) (r : ℚ) :
    ((st.selectNextPattern r).2).completedPatterns = st.completedPatterns ∧
    ((st.selectNextPattern r).2).morphingActive = st.morphingActive ∧
    ((st.selectNextPattern r).2).morphTimer = st.morphTimer := by
  simp only [CMState.selectNextPattern]
  split_ifs <;> exact ⟨rfl, rfl, rfl⟩

theorem startMorphing_spec (st : CMState) (r : ℚ) :
    (st.startMorphing r).completedPatterns = st.completedPatterns ∧
    (st.startMorphing r).morphingActive = true ∧
    (st.startMorphing r).morphTimer = 3000 ∧
    ∃ n, (st.startMorphing r).pendingPattern = some n := by
  unfold CMState.startMorphing
  obtain ⟨h1, h2, h3⟩ := selectNextPattern_preserves
    { st with morphingActive := true, morphTimer := 3000 } r
  exact ⟨h1, h2, h3, _, rfl⟩

/-! ## Claim C7 -/

/-- C7: collectStar returns false with no state change for a tag
outside the current goal's star set or one already collected; for a
fresh required tag it returns true exactly when this collection brings
the satisfied count to the required total, and in that case it appends
one entry to the append-only completion history, activates the 3000 ms
morphing transition and schedules a next pattern; otherwise it just
records the tag and returns false. -/
theorem c7_collectStar (st : CMState) (p : Pattern) (star : String) (r : ℚ)
    (now : ℕ) (hp : st.currentPattern = some p) :
    (¬ (star ∈ p.stars) → st.collectStar star r now = (st, false)) ∧
    (star ∈ st.collectedStars → st.collectStar star r now = (st, false)) ∧
    (star ∈ p.stars → ¬ (star ∈ st.collectedStars) →
      ((st.collectStar star r now).2 = true ↔
        st.collectedStars.length + 1 = p.stars.length) ∧
      (st.collectedStars.length + 1 = p.stars.length →
        (st.collectStar star r now).1.completedPatterns
          = st.completedPatterns
            ++ [⟨st.targetPattern, p.name, now, p.bonus⟩] ∧
        (st.collectStar star r now).1.morphingActive = true ∧
        (st.collectStar star r now).1.morphTimer = 3000 ∧
        ∃ nextName,
          (st.collectStar star r now).1.pendingPattern = some nextName) ∧
      (st.collectedStars.length + 1 ≠ p.stars.length →
        st.collectStar star r now
          = ({ st with collectedStars := st.collectedStars ++ [star] },
             false))) := by
  have hbase : st.collectStar star r now
      = (if ¬ (star ∈ p.stars) then (st, false)
         else if star ∈ st.collectedStars then (st, false)
         else
           if (st.collectedStars ++ [star]).length = p.stars.length then
             CMState.completeConstellation
               { st with collectedStars := st.collectedStars ++ [star] }
               p r now
           else
             ({ st with collectedStars := st.collectedStars ++ [star] },
              false)) := by
    unfold CMState.collectStar
    rw [hp]
  refine ⟨?_, ?_, ?_⟩
  · intro hout
    rw [hbase, if_pos hout]
  · intro hin
    rw [hbase]
    by_cases hout : star ∈ p.stars
    · rw [if_neg (by simpa using hout), if_pos hin]
    · rw [if_pos hout]
  · intro hstar hnew
    have hlen : (st.collectedStars ++ [star]).length
        = st.collectedStars.length + 1 := by simp
    rw [hbase, if_neg (by simpa using hstar), if_neg hnew]
    by_cases hc : st.collectedStars.length + 1 = p.stars.length
    · rw [if_pos (by rw [hlen]; exact hc)]
      obtain ⟨hm1, hm2, hm3, n, hm4⟩ := startMorphing_spec
        { ({ st with collectedStars := st.collectedStars ++ [star] } : CMState)
          with completedPatterns :=
            ({ st with collectedStars := st.collectedStars ++ [star] } :
              CMState).completedPatterns
            ++ [⟨({ st with collectedStars := st.collectedStars ++ [star] } :
                  CMState).targetPattern, p.name, now, p.bonus⟩] } r
      refine ⟨⟨fun _ => hc, fun _ => rfl⟩, fun _ => ⟨?_, ?_, ?_, n, ?_⟩,
        fun hne => absurd hc hne⟩
      · show (CMState.completeConstellation _ p r now).1.completedPatterns = _
        unfold CMState.completeConstellation
        rw [hm1]
      · show (CMState.completeConstellation _ p r now).1.morphingActive = true
        unfold CMState.completeConstellation
        rw [hm2]
      · show (CMState.completeConstellation _ p r now).1.morphTimer = 3000
        unfold CMState.completeConstellation
        rw [hm3]
      · show (CMState.completeConstellation _ p r now).1.pendingPattern
          = some n
        unfold CMState.completeConstellation
        rw [hm4]
    · rw [if_neg (by rw [hlen]; exact hc)]
      exact ⟨⟨fun hf => absurd hf (by simp), fun ht => absurd ht hc⟩,
        fun ht => absurd ht hc, fun _ => rfl⟩

/-- Witness for C7 at a concrete input: the triangle goal with alpha
and beta already collected; collecting gamma completes it. -/
theorem c7_witness :
    ((⟨builtinPatterns,
        some ⟨"Triangle Celeste", ["alpha", "beta", "gamma"], 150⟩,
        ["alpha", "beta"], "triangle", false, 0, [], [], none⟩ :
        CMState).collectStar "gamma" 0 7).2 = true :=
  ((c7_collectStar
    ⟨builtinPatterns,
      some ⟨"Triangle Celeste", ["alpha", "beta", "gamma"], 150⟩,
      ["alpha", "beta"], "triangle", false, 0, [], [], none⟩
    ⟨"Triangle Celeste", ["alpha", "beta", "gamma"], 150⟩
    "gamma" 0 7 rfl).2.2 (by simp) (by simp)).1.mpr (by simp)

/-! ## Claim C8 -/

/-- C8 (amended): when patterns outside the no-repeat memory remain,
the selected next goal is never one of the goals in the memory - which
holds the goals used before the one just completed, since the current
target is pushed into the memory only after the selection; when no
pattern remains outside the memory, the memory is cleared.  The
original claim that the goal just completed can never repeat is refuted
separately: it is not yet in the memory at selection time. -/
theorem c8_selection_no_repeat (st : CMState) (r : ℚ) (h0 : 0 ≤ r)
    (h1 : r < 1) :
    ((st.patterns.map Prod.fst).filter
        (fun q => decide (q ∉ st.recentPatterns)) ≠ [] →
      (st.selectNextPattern r).1 ∉ st.recentPatterns) ∧
    ((st.patterns.map Prod.fst).filter
        (fun q => decide (q ∉ st.recentPatterns)) = [] →
      (st.selectNextPattern r).2.recentPatterns = []) := by
  constructor
  · intro hav
    set A := (st.patterns.map Prod.fst).filter
      (fun q => decide (q ∉ st.recentPatterns)) with hA
    have hsel : (st.selectNextPattern r).1
        = A.getD (⌊r * (A.length : ℚ)⌋).toNat "" := by
      simp only [CMState.selectNextPattern]
      rw [if_neg hav]
    have hlenpos : 0 < A.length := List.length_pos.mpr hav
    have hidx : (⌊r * (A.length : ℚ)⌋).toNat < A.length := by
      have h2 : ⌊r * (A.length : ℚ)⌋ < (A.length : ℤ) := by
        apply Int.floor_lt.mpr
        push_cast
        calc r * (A.length : ℚ) < 1 * (A.length : ℚ) :=
              mul_lt_mul_of_pos_right h1 (by exact_mod_cast hlenpos)
          _ = (A.length : ℚ) := one_mul _
      omega
    rw [hsel, List.getD_eq_getElem A "" hidx]
    have hmem : A[(⌊r * (A.length : ℚ)⌋).toNat] ∈ A := List.getElem_mem hidx
    have hfil := List.mem_filter.mp hmem
    exact of_decide_eq_true hfil.2
  · intro hav
    simp only [CMState.selectNextPattern]
    rw [if_pos hav]

/-- Witness for C8 at a concrete input: with the no-repeat memory
holding cross, the selection at roll 0 avoids cross. -/
theorem c8_witness :
    ((⟨builtinPatterns,
        some ⟨"Triangle Celeste", ["alpha", "beta", "gamma"], 150⟩,
        [], "triangle", false, 0, [], ["cross"], none⟩ :
        CMState).selectNextPattern 0).1
      ∉ (⟨builtinPatterns,
        some ⟨"Triangle Celeste", ["alpha", "beta", "gamma"], 150⟩,
        [], "triangle", false, 0, [], ["cross"], none⟩ :
        CMState).recentPatterns :=
  (c8_selection_no_repeat
    ⟨builtinPatterns,
      some ⟨"Triangle Celeste", ["alpha", "beta", "gamma"], 150⟩,
      [], "triangle", false, 0, [], ["cross"], none⟩ 0
    (by norm_num) (by norm_num)).1 (by simp [builtinPatterns])

/-- C8 counterexample: completing the triangle goal with an empty
no-repeat memory schedules triangle itself as the next goal (random
roll 0), because the just-completed target is pushed into the memory
only after the next pattern has been chosen - contradicting the claim
that the selection never equals the goal just completed. -/
theorem c8_counterexample :
    ((⟨builtinPatterns,
        some ⟨"Triangle Celeste", ["alpha", "beta", "gamma"], 150⟩,
        ["alpha", "beta"], "triangle", false, 0, [], [], none⟩ :
        CMState).collectStar "gamma" 0 0).2 = true ∧
    (⟨builtinPatterns,
        some ⟨"Triangle Celeste", ["alpha", "beta", "gamma"], 150⟩,
        ["alpha", "beta"], "triangle", false, 0, [], [], none⟩ :
        CMState).targetPattern = "triangle" ∧
    ((⟨builtinPatterns,
        some ⟨"Triangle Celeste", ["alpha", "beta", "gamma"], 150⟩,
        ["alpha", "beta"], "triangle", false, 0, [], [], none⟩ :
        CMState).collectStar "gamma" 0 0).1.pendingPattern
      = some "triangle" := by
  refine ⟨?_, rfl, ?_⟩ <;>
    simp [CMState.collectStar, CMState.completeConstellation,
      CMState.startMorphing, CMState.selectNextPattern,
      CMState.selectRandomPattern, builtinPatterns, List.getD]

end SerpentisNexus
